import Mathlib

/-!
Verification development for the curve-synthesis core of `sdfk_frontend`
(`src/curve_helper.py`).

Modelling conventions:
* Python floats are modelled as exact rationals (`ℚ`).
* Python `int(x)` (truncation toward zero) is `pyInt`.
* NumPy arrays are modelled as `List ℚ`; `np.interp`, `np.linspace`,
  `np.gradient`, `np.cumsum`, `np.allclose` are given direct definitions.
* Transcendental operations (`math.sin`, `math.exp`, `math.log`, `math.log1p`,
  `scipy.special.fresnel`, the golden-ratio power `t ** phi`, `np.std`'s square
  root) and the float constants `math.pi`, `math.e` are abstracted into a
  `MathOps` record of functions on `ℚ`; every theorem quantifies over it.
* The process-wide `random` module is modelled as a pair of fixed oracle
  streams (`Rng`): one stream of unit-interval floats for `random.uniform`
  and one stream of naturals for `random.randint` / `random.choice`, together
  with a pair of cursor positions (`RState`) that each draw advances.
* Python exceptions are modelled with `Except PyErr`; a `try/except` clause
  that catches and converts becomes a `match` on the `Except` value.
* Keyframe dictionaries read from JSON may lack fields: `RawKey` models the
  `time` / `value` entries as `Option ℚ` (`none` = the dict access raises,
  i.e. the field is missing or unusable), and similarly for the `keys` field
  of a raw curve and for the `floatCurves` field of a raw record.
-/

/-- Python `int(x)` on a float: truncation toward zero. -/
def pyInt (q : ℚ) : ℤ := if 0 ≤ q then ⌊q⌋ else ⌈q⌉

/-- CurveHelper.clamp: `max(min_value, min(value, max_value))`. -/
def clamp (value min_value max_value : ℚ) : ℚ := max min_value (min value max_value)

/-- CurveHelper.remap: `(values - old_min) / (old_max - old_min) * (new_max - new_min) + new_min`. -/
def remap (values old_min old_max new_min new_max : ℚ) : ℚ :=
  (values - old_min) / (old_max - old_min) * (new_max - new_min) + new_min

/-- Minimum of a NumPy-style array (Python `min`); junk value 0 on the empty list. -/
def pyMin : List ℚ → ℚ
  | [] => 0
  | h :: t => t.foldl min h

/-- Maximum of a NumPy-style array (Python `max`); junk value 0 on the empty list. -/
def pyMax : List ℚ → ℚ
  | [] => 0
  | h :: t => t.foldl max h

/-- The `np.allclose(a, b)` check against a broadcast scalar `b`, with NumPy's
default tolerances `rtol = 1e-5`, `atol = 1e-8`:
every entry satisfies `|a_i - b| ≤ atol + rtol * |b|`. -/
def allcloseConst (l : List ℚ) (b : ℚ) : Bool :=
  l.all fun a => decide (|a - b| ≤ 1/100000000 + 1/100000 * |b|)

/-- The `np.linspace(0, 1, n)` grid: `n` evenly spaced samples of `[0,1]`. -/
def linspace (n : ℕ) : List ℚ :=
  if n ≤ 1 then (List.range n).map (fun _ => 0)
  else (List.range n).map (fun i => (i : ℚ) / ((n : ℚ) - 1))

/-- One-point evaluation of `np.interp(x, xp, fp)` for an increasing abscissa
list `xp`: constant extrapolation outside `[xp[0], xp[-1]]`, piecewise linear
inside.  (The degenerate empty case, which NumPy rejects with a `ValueError`,
is guarded by the callers and given junk value 0 here.) -/
def npInterp : List ℚ → List ℚ → ℚ → ℚ
  | x0 :: x1 :: xs, f0 :: f1 :: fs, x =>
    if x ≤ x0 then f0
    else if x ≤ x1 then f0 + (f1 - f0) * (x - x0) / (x1 - x0)
    else npInterp (x1 :: xs) (f1 :: fs) x
  | [_], f0 :: _, _ => f0
  | _, _, _ => 0

/-- The `np.gradient` of a 1-D array with unit spacing: one-sided differences at
the ends, central differences inside.  (Arrays of length < 2 are never passed
to it by the embedded code.) -/
def npGradient (l : List ℚ) : List ℚ :=
  match l with
  | [] => []
  | [_] => []
  | a :: b :: rest =>
    (b - a) :: npGradientAux a b rest
where
  /-- interior/final entries of `np.gradient`, given the two previous samples -/
  npGradientAux (p q : ℚ) : List ℚ → List ℚ
    | [] => [q - p]
    | c :: rest => (c - p) / 2 :: npGradientAux q c rest

/-- The `ndarray.cumsum()` running prefix sum. -/
def cumsum : List ℤ → List ℤ
  | [] => []
  | a :: l => a :: (cumsum l).map (a + ·)

/-- Arithmetic mean of a list (`np.mean`); junk value 0 on the empty list. -/
def npMean (l : List ℚ) : ℚ := l.sum / (l.length : ℚ)

/-- Python exception kinds distinguished by the embedded `try/except` clauses. -/
inductive PyErr where
  | keyError
  | typeError
  | indexError
  | valueError
deriving DecidableEq, Repr

/-- One raw keyframe dictionary: the `time` and `value` entries are `none` when
the dict access would raise (missing key / unusable value), the remaining
metadata entries are irrelevant to the sampling pipeline and omitted. -/
structure RawKey where
  time? : Option ℚ
  value? : Option ℚ
deriving DecidableEq, Repr

/-- One raw per-channel curve dictionary: `keys?` is `none` when the `"keys"`
entry is missing. -/
structure RawCurve where
  keys? : Option (List RawKey)
deriving DecidableEq, Repr

/-- The four-channel `floatCurves` mapping of a raw record; a `none` channel is
absent from the dictionary. -/
structure RawCurves where
  R? : Option RawCurve
  G? : Option RawCurve
  B? : Option RawCurve
  A? : Option RawCurve
deriving DecidableEq, Repr

/-- A raw curve record (the `curve_json` dictionary): `floatCurves?` is `none`
when the `"floatCurves"` entry is missing. -/
structure RawRecord where
  floatCurves? : Option RawCurves
deriving DecidableEq, Repr

/-- Read one field off every keyframe dictionary of a list (the Python list
comprehensions `[key[...] for key in curve]`); `none` when any access raises. -/
def fields? (f : RawKey → Option ℚ) : List RawKey → Option (List ℚ)
  | [] => some []
  | k :: ks =>
    match f k, fields? f ks with
    | some v, some vs => some (v :: vs)
    | _, _ => none

/-- CurveHelper.extract_curve_data: a single-keyframe curve expands to the
two-point constant curve over times `[0, 1]`; otherwise the `time` and `value`
fields are read off every key and values within `epsilon` of zero are snapped
to exactly zero.  A missing field raises `KeyError`. -/
def extract_curve_data (curve : List RawKey) (epsilon : ℚ := 1/1000000) :
    Except PyErr (List ℚ × List ℚ) :=
  if curve.length = 1 then
    match curve.head? with
    | some k =>
      match k.value? with
      | some v => .ok ([0, 1], [v, v])
      | none => .error .keyError
    | none => .error .keyError
  else
    match (fields? (fun k => k.time?) curve), (fields? (fun k => k.value?) curve) with
    | some times, some values =>
      .ok (times, values.map fun v => if |v| < epsilon then 0 else v)
    | none, _ => .error .keyError
    | _, none => .error .keyError

/-- CurveHelper.process_alpha_channel: if all samples are `np.allclose`-equal to
the first one, emit a flat array of `int(first * 255)`; the `min == max` guard
emits flat 255; otherwise remap the sampled range to `[0, 255]` and truncate
to 8-bit (`astype(np.uint8)`).  Indexing `alpha_normalized[0]` on an empty
array raises `IndexError`. -/
def process_alpha_channel (alpha_normalized : List ℚ) : Except PyErr (List ℚ) :=
  match alpha_normalized with
  | [] => .error .indexError
  | a0 :: _ =>
    if allcloseConst alpha_normalized a0 then
      .ok (alpha_normalized.map fun _ => (pyInt (a0 * 255) : ℚ))
    else
      let min_alpha := pyMin alpha_normalized
      let max_alpha := pyMax alpha_normalized
      if min_alpha = max_alpha then
        .ok (alpha_normalized.map fun _ => 255)
      else
        .ok (alpha_normalized.map fun a =>
          (pyInt (remap a min_alpha max_alpha 0 255) : ℚ))

/-- Abstract interface for the transcendental operations and float constants
the source uses (`math.sin`, `math.exp`, `math.log`, `math.log1p`,
`scipy.special.fresnel`'s cosine integral, the golden-ratio power `x ** phi`
from `generate_fibonacci_weighted_value`, `np.std`'s square root, `math.pi`,
`math.e`).  Theorems quantify over an arbitrary interpretation. -/
structure MathOps where
  pi : ℚ
  e : ℚ
  sin : ℚ → ℚ
  exp : ℚ → ℚ
  log : ℚ → ℚ
  log1p : ℚ → ℚ
  fresnelC : ℚ → ℚ
  powPhi : ℚ → ℚ
  sqrt : ℚ → ℚ

/-- Population standard deviation `np.std`: square root of the mean squared
deviation from the mean. -/
def npStd (ops : MathOps) (l : List ℚ) : ℚ :=
  ops.sqrt (npMean (l.map fun x => (x - npMean l) ^ 2))

/-- One RGBA pixel of the rasterized preview, 8-bit integer components. -/
structure Pixel where
  r : ℤ
  g : ℤ
  b : ℤ
  a : ℤ
deriving DecidableEq, Repr

/-- The gradient statistics returned alongside the thumbnail. -/
structure GradientInfo where
  red_gradient_mean : ℚ
  green_gradient_mean : ℚ
  blue_gradient_mean : ℚ
  alpha_spikiness : ℚ
deriving DecidableEq, Repr

/-- CurveHelper.create_checkered_background, resolved per pixel: after all the
8×8 squares are painted (later squares overpaint the one-pixel overlap of
earlier ones), pixel `(x, y)` carries `colors[((x // 8) + (y // 8)) % 2]` with
light gray at parity 0 and white at parity 1, both fully opaque. -/
def checkerPixel (x y : ℕ) : Pixel :=
  if ((x / 8) + (y / 8)) % 2 = 0 then ⟨200, 200, 200, 255⟩ else ⟨255, 255, 255, 255⟩

/-- Source-over alpha compositing of a foreground pixel onto a background
pixel, modelling `PIL.Image.alpha_composite` in exact rationals on the 0–255
scale (output truncated to integers like the library's 8-bit buffer). -/
def compositePixel (bg fg : Pixel) : Pixel :=
  let af : ℚ := fg.a
  let ab : ℚ := bg.a
  let ao : ℚ := af + ab * (255 - af) / 255
  if ao = 0 then ⟨0, 0, 0, 0⟩
  else
    ⟨pyInt (((fg.r : ℚ) * af + (bg.r : ℚ) * ab * (255 - af) / 255) / ao),
     pyInt (((fg.g : ℚ) * af + (bg.g : ℚ) * ab * (255 - af) / 255) / ao),
     pyInt (((fg.b : ℚ) * af + (bg.b : ℚ) * ab * (255 - af) / 255) / ao),
     pyInt ao⟩

/-- The single pixel row of the raster: per column, R/G/B are the resampled
`[0,1]` signals scaled by 255, the alpha component is the remapped alpha, each
clamped to `[0, 255]` and truncated by `int(...)`. -/
def rasterRow (red green blue alphaR : List ℚ) : List Pixel :=
  (((red.zip green).zip blue).zip alphaR).map fun p =>
    ⟨pyInt (clamp (p.1.1.1 * 255) 0 255),
     pyInt (clamp (p.1.1.2 * 255) 0 255),
     pyInt (clamp (p.1.2 * 255) 0 255),
     pyInt (clamp p.2 0 255)⟩

/-- The full preview image: `height` copies of the single sampled row (there is
no vertical variation), composited over the checkerboard matte unless a
transparent background is requested. -/
def rasterImage (row : List Pixel) (height : ℕ) (transparent : Bool) : List (List Pixel) :=
  (List.range height).map fun y =>
    if transparent then row
    else row.enum.map fun p => compositePixel (checkerPixel p.1 y) p.2

/-- Fetch the `keys` list of one channel of the `floatCurves` dict:
`float_curves[channel]["keys"]` raises `KeyError` when `"keys"` is absent. -/
def channelKeys (c? : Option RawCurve) : Except PyErr (List RawKey) :=
  match c? with
  | none => .error .keyError
  | some c =>
    match c.keys? with
    | none => .error .keyError
    | some ks => .ok ks

/-- Resample one channel on the `linspace` grid; `np.interp` raises
`ValueError` on an empty abscissa list. -/
def resample (width : ℕ) (times values : List ℚ) : Except PyErr (List ℚ) :=
  if times.isEmpty then .error .valueError
  else .ok ((linspace width).map (npInterp times values))

/-- The four-channel extraction prefix shared verbatim by
`generate_thumbnail_from_curve` and `compute_integral_from_curve_json`:
`extract_curve_data(float_curves[ch]["keys"])` for R, G, B, A in order. -/
def extractChannels (fcs : RawCurves) :
    Except PyErr ((List ℚ × List ℚ) × (List ℚ × List ℚ) × (List ℚ × List ℚ) × (List ℚ × List ℚ)) := do
  let rd ← channelKeys fcs.R? >>= fun ks => extract_curve_data ks
  let gd ← channelKeys fcs.G? >>= fun ks => extract_curve_data ks
  let bd ← channelKeys fcs.B? >>= fun ks => extract_curve_data ks
  let ad ← channelKeys fcs.A? >>= fun ks => extract_curve_data ks
  pure (rd, gd, bd, ad)

/-- Body of the second `try` block of
CurveHelper.generate_thumbnail_from_curve: extraction of all four channels,
resampling at width 128, alpha remap, gradients and spikiness, then the
128×128 image.  Any `Except.error` escaping here is a raised exception. -/
def thumbnailBody (ops : MathOps) (fcs : RawCurves) (transparent : Bool) :
    Except PyErr (List (List Pixel) × GradientInfo) := do
  let chans ← extractChannels fcs
  let rd := chans.1
  let gd := chans.2.1
  let bd := chans.2.2.1
  let ad := chans.2.2.2
  let red_normalized ← resample 128 rd.1 rd.2
  let green_normalized ← resample 128 gd.1 gd.2
  let blue_normalized ← resample 128 bd.1 bd.2
  let alpha_normalized ← resample 128 ad.1 ad.2
  let alpha_remapped ← process_alpha_channel alpha_normalized
  let red_gradient := npGradient red_normalized
  let green_gradient := npGradient green_normalized
  let blue_gradient := npGradient blue_normalized
  let alpha_gradient := npGradient alpha_remapped
  let alpha_spikiness := npStd ops alpha_gradient
  let row := rasterRow red_normalized green_normalized blue_normalized alpha_remapped
  let image := rasterImage row 128 transparent
  pure (image,
    { red_gradient_mean := npMean (red_gradient.map fun x => |x|)
      green_gradient_mean := npMean (green_gradient.map fun x => |x|)
      blue_gradient_mean := npMean (blue_gradient.map fun x => |x|)
      alpha_spikiness := alpha_spikiness })

/-- CurveHelper.generate_thumbnail_from_curve.  A missing `floatCurves` entry
or a missing channel yields the `(None, None)` outcome, as does any
`IndexError` / `KeyError` / `TypeError` raised while extracting and resampling
(the `except` clause); other exceptions (NumPy's `ValueError` on an empty
abscissa) propagate as `Except.error`.  The Python `(None, None)` pair is
modelled as `none` of an `Option` of a pair: no path returns a partial
image-without-stats or stats-without-image. -/
def generate_thumbnail_from_curve (ops : MathOps) (rec : RawRecord)
    (transparent_background : Bool := false) :
    Except PyErr (Option (List (List Pixel) × GradientInfo)) :=
  match rec.floatCurves? with
  | none => .ok none
  | some fcs =>
    if fcs.R?.isNone ∨ fcs.G?.isNone ∨ fcs.B?.isNone ∨ fcs.A?.isNone then .ok none
    else
      match thumbnailBody ops fcs transparent_background with
      | .ok v => .ok (some v)
      | .error .indexError => .ok none
      | .error .keyError => .ok none
      | .error .typeError => .ok none
      | .error e => .error e

/-- Body of the `try` block of CurveHelper.compute_integral_from_curve_json up
to the grayscale row: per-channel extraction and resampling at the requested
width, alpha remap, then per sample `int((r + g + b) / 3 * (a / 255))` with
`r,g,b` the resampled signals scaled by 255 and `a` the remapped alpha. -/
def grayscaleRowBody (fcs : RawCurves) (width : ℕ) : Except PyErr (List ℤ) := do
  let chans ← extractChannels fcs
  let rd := chans.1
  let gd := chans.2.1
  let bd := chans.2.2.1
  let ad := chans.2.2.2
  let red_normalized ← resample width rd.1 rd.2
  let green_normalized ← resample width gd.1 gd.2
  let blue_normalized ← resample width bd.1 bd.2
  let alpha_normalized ← resample width ad.1 ad.2
  let alpha_remapped ← process_alpha_channel alpha_normalized
  pure ((((red_normalized.zip green_normalized).zip blue_normalized).zip alpha_remapped).map
    fun p => pyInt ((p.1.1.1 * 255 + p.1.1.2 * 255 + p.1.2 * 255) / 3 * (p.2 / 255)))

/-- The grayscale row of CurveHelper.compute_integral_from_curve_json:
`None` when `floatCurves` or a channel is missing, and on any exception
(the function's `except` clauses catch everything). -/
def grayscaleRow (rec : RawRecord) (width : ℕ) : Option (List ℤ) :=
  match rec.floatCurves? with
  | none => none
  | some fcs =>
    if fcs.R?.isNone ∨ fcs.G?.isNone ∨ fcs.B?.isNone ∨ fcs.A?.isNone then none
    else (grayscaleRowBody fcs width).toOption

/-- CurveHelper.compute_integral_from_curve_json: the cumulative sum of the
grayscale row, or `None` on a missing channel or any exception. -/
def compute_integral_from_curve_json (rec : RawRecord) (width : ℕ := 128) :
    Option (List ℤ) :=
  (grayscaleRow rec width).map cumsum

/-- The oracle streams modelling the process-wide `random` module: a stream of
unit-interval floats consumed by `random.uniform` / `random.random`, and a
stream of naturals consumed by `random.randint` / `random.choice`. -/
structure Rng where
  floats : ℕ → ℚ
  ints : ℕ → ℕ

/-- Cursor positions into the two oracle streams: `(float cursor, int cursor)`. -/
abbrev RState := ℕ × ℕ

/-- Draw the next raw unit float from the oracle. -/
def randFloat (rnd : Rng) (s : RState) : ℚ × RState :=
  (rnd.floats s.1, (s.1 + 1, s.2))

/-- Python `random.uniform(a, b) = a + (b - a) * random.random()`. -/
def pyUniform (rnd : Rng) (a b : ℚ) (s : RState) : ℚ × RState :=
  let (u, s') := randFloat rnd s
  (a + (b - a) * u, s')

/-- Python `random.randint(a, b)`: an integer in `[a, b]` (inclusive), modelled
by reducing the next oracle natural into the range. -/
def pyRandint (rnd : Rng) (a b : ℕ) (s : RState) : ℕ × RState :=
  (a + rnd.ints s.2 % (b + 1 - a), (s.1, s.2 + 1))

/-- The FloatCurveType enum of `src/enums.py`, in declaration order. -/
inductive FloatCurveType where
  | PARABOLIC | SINUSOIDAL | EXPONENTIAL | LOGARITHMIC | BELL | CUBIC | STEP
  | RANDOM | QUADRATIC | HYPERBOLIC | LERP | DRAGON | CYCLE | RAINBOW
  | EULER_SPIRAL | FIBONACCI_WEIGHTED
deriving DecidableEq, Repr

/-- The value of `list(FloatCurveType)`, in enum declaration order. -/
def fctList : List FloatCurveType :=
  [.PARABOLIC, .SINUSOIDAL, .EXPONENTIAL, .LOGARITHMIC, .BELL, .CUBIC, .STEP,
   .RANDOM, .QUADRATIC, .HYPERBOLIC, .LERP, .DRAGON, .CYCLE, .RAINBOW,
   .EULER_SPIRAL, .FIBONACCI_WEIGHTED]

/-- Python `random.choice(list(FloatCurveType))`, modelled by reducing the next
oracle natural into the 16 enum members. -/
def pyChoiceFCT (rnd : Rng) (s : RState) : FloatCurveType × RState :=
  (fctList.getD (rnd.ints s.2 % 16) .PARABOLIC, (s.1, s.2 + 1))

/-- CurveHelper.generate_dragon_step_value: three sine harmonics at
`theta = 4 * pi * t`, rescaled by `(value + 0.6) / 1.2` and clamped to `[0,1]`. -/
def generate_dragon_step_value (ops : MathOps) (t : ℚ) : ℚ :=
  let theta := t * 4 * ops.pi
  let value := 3/10 * ops.sin theta + 2/10 * ops.sin (3 * theta + ops.pi / 4)
    + 1/10 * ops.sin (5 * theta + ops.pi / 2)
  clamp ((value + 6/10) / (12/10)) 0 1

/-- CurveHelper.generate_rainbow_value: a shifted sine cycle, clamped. -/
def generate_rainbow_value (ops : MathOps) (t : ℚ) : ℚ :=
  clamp ((ops.sin (2 * ops.pi * t - ops.pi / 2) + 1) / 2) 0 1

/-- CurveHelper.generate_euler_spiral_value: twice the Fresnel cosine integral,
clamped. -/
def generate_euler_spiral_value (ops : MathOps) (t : ℚ) : ℚ :=
  clamp (2 * ops.fresnelC t) 0 1

/-- CurveHelper.generate_fibonacci_weighted_value:
`t ** phi / (t ** phi + (1 - t) ** phi)` with `phi` the golden ratio, clamped. -/
def generate_fibonacci_weighted_value (ops : MathOps) (t : ℚ) : ℚ :=
  clamp (ops.powPhi t / (ops.powPhi t + ops.powPhi (1 - t))) 0 1

/-- The deterministic shape formula of each non-stochastic family, exactly as
written in the per-family branches of both synthesizers (lines 104–257 and
351–504 of `curve_helper.py` carry identical branch tables).  `STEP` and
`RANDOM` draw randomness and are handled in `branchKey` directly; their entry
here is the initialised placeholder `0.0` of the scaled-mode loop. -/
def shapeValue (ops : MathOps) : FloatCurveType → ℚ → ℚ
  | .PARABOLIC, t => (t - 5/10) ^ 2
  | .SINUSOIDAL, t => (ops.sin (t * ops.pi - ops.pi / 2) + 1) / 2
  | .EXPONENTIAL, t => t ^ 3
  | .LOGARITHMIC, t => ops.log1p (t * (ops.e - 1)) / ops.log ops.e
  | .BELL, t => ops.exp (-((t - 5/10) ^ 2) / (2 * (5/100) ^ 2))
  | .CUBIC, t => 4 * (t - 5/10) ^ 3 + 5/10
  | .STEP, _ => 0
  | .RANDOM, _ => 0
  | .QUADRATIC, t => t ^ 2
  | .HYPERBOLIC, t => 1 / (1 + ops.exp (-10 * (t - 5/10)))
  | .LERP, t => t
  | .DRAGON, t => generate_dragon_step_value ops t
  | .CYCLE, t => (ops.sin (2 * ops.pi * t) + 1) / 2
  | .RAINBOW, t => generate_rainbow_value ops t
  | .EULER_SPIRAL, t => generate_euler_spiral_value ops t
  | .FIBONACCI_WEIGHTED, t => generate_fibonacci_weighted_value ops t

/-- The pre-noise output of one per-family branch of the synthesizer loop:
value, interpolation metadata strings, and the four tangent scalars. -/
structure BranchOut where
  value : ℚ
  interpMode : String
  tangentMode : String
  tangentWeightMode : String
  arriveTangent : ℚ
  arriveTangentWeight : ℚ
  leaveTangent : ℚ
  leaveTangentWeight : ℚ

/-- The per-family branch of the synthesizer loops (identical in
`generate_random_float_curve` lines 104–257 and `generate_float_curve` lines
351–504): the branch's value formula and its fixed interpolation metadata,
drawing the tangent scalars (and, for `STEP` / `RANDOM`, the value randomness)
in source order. -/
def branchKey (rnd : Rng) (ops : MathOps) (fct : FloatCurveType) (t : ℚ)
    (s : RState) : BranchOut × RState :=
  match fct with
  | .PARABOLIC =>
    let (at_, s) := pyUniform rnd (-2/10) (2/10) s
    let (lt, s) := pyUniform rnd (-2/10) (2/10) s
    let (atw, s) := pyUniform rnd (2/10) (6/10) s
    let (ltw, s) := pyUniform rnd (2/10) (6/10) s
    (⟨shapeValue ops .PARABOLIC t, "RCIM_Cubic", "RCTM_Auto", "RCTWM_WeightedBoth",
      at_, atw, lt, ltw⟩, s)
  | .SINUSOIDAL =>
    let (at_, s) := pyUniform rnd (-2/10) (2/10) s
    let (lt, s) := pyUniform rnd (-2/10) (2/10) s
    let (atw, s) := pyUniform rnd (3/10) (7/10) s
    let (ltw, s) := pyUniform rnd (3/10) (7/10) s
    (⟨shapeValue ops .SINUSOIDAL t, "RCIM_Cubic", "RCTM_Auto", "RCTWM_WeightedArrive",
      at_, atw, lt, ltw⟩, s)
  | .EXPONENTIAL =>
    let (at_, s) := pyUniform rnd 0 (3/10) s
    let (lt, s) := pyUniform rnd (5/10) 1 s
    let (atw, s) := pyUniform rnd (1/10) (4/10) s
    let (ltw, s) := pyUniform rnd (5/10) 1 s
    (⟨shapeValue ops .EXPONENTIAL t, "RCIM_Linear", "RCTM_Break", "RCTWM_WeightedLeave",
      at_, atw, lt, ltw⟩, s)
  | .LOGARITHMIC =>
    let (at_, s) := pyUniform rnd (1/10) (5/10) s
    let (lt, s) := pyUniform rnd (1/10) (5/10) s
    let (atw, s) := pyUniform rnd (1/10) (3/10) s
    let (ltw, s) := pyUniform rnd (1/10) (3/10) s
    (⟨shapeValue ops .LOGARITHMIC t, "RCIM_Linear", "RCTM_Break", "RCTWM_WeightedArrive",
      at_, atw, lt, ltw⟩, s)
  | .BELL =>
    let (at_, s) := pyUniform rnd (-1/10) (1/10) s
    let (lt, s) := pyUniform rnd (-1/10) (1/10) s
    let (atw, s) := pyUniform rnd (2/10) (5/10) s
    let (ltw, s) := pyUniform rnd (2/10) (5/10) s
    (⟨shapeValue ops .BELL t, "RCIM_Cubic", "RCTM_Auto", "RCTWM_WeightedBoth",
      at_, atw, lt, ltw⟩, s)
  | .CUBIC =>
    let (at_, s) := pyUniform rnd (-2/10) (2/10) s
    let (lt, s) := pyUniform rnd (-2/10) (2/10) s
    let (atw, s) := pyUniform rnd (3/10) (7/10) s
    let (ltw, s) := pyUniform rnd (3/10) (7/10) s
    (⟨shapeValue ops .CUBIC t, "RCIM_Cubic", "RCTM_Auto", "RCTWM_WeightedBoth",
      at_, atw, lt, ltw⟩, s)
  | .STEP =>
    let (step_position, s) := pyUniform rnd (3/10) (7/10) s
    (⟨if t < step_position then 0 else 1, "RCIM_Constant", "RCTM_Break",
      "RCTWM_WeightedNone", 0, 0, 0, 0⟩, s)
  | .RANDOM =>
    let (v, s) := pyUniform rnd 0 1 s
    let (at_, s) := pyUniform rnd (-5/10) (5/10) s
    let (lt, s) := pyUniform rnd (-5/10) (5/10) s
    let (atw, s) := pyUniform rnd 0 1 s
    let (ltw, s) := pyUniform rnd 0 1 s
    (⟨v, "RCIM_Linear", "RCTM_Break", "RCTWM_WeightedNone", at_, atw, lt, ltw⟩, s)
  | .QUADRATIC =>
    let (at_, s) := pyUniform rnd (-3/10) (3/10) s
    let (lt, s) := pyUniform rnd (-3/10) (3/10) s
    let (atw, s) := pyUniform rnd (2/10) (6/10) s
    let (ltw, s) := pyUniform rnd (2/10) (6/10) s
    (⟨shapeValue ops .QUADRATIC t, "RCIM_Cubic", "RCTM_Auto", "RCTWM_WeightedBoth",
      at_, atw, lt, ltw⟩, s)
  | .HYPERBOLIC =>
    let (at_, s) := pyUniform rnd (-4/10) (4/10) s
    let (lt, s) := pyUniform rnd (-4/10) (4/10) s
    let (atw, s) := pyUniform rnd (3/10) (7/10) s
    let (ltw, s) := pyUniform rnd (3/10) (7/10) s
    (⟨shapeValue ops .HYPERBOLIC t, "RCIM_Cubic", "RCTM_Auto", "RCTWM_WeightedBoth",
      at_, atw, lt, ltw⟩, s)
  | .LERP =>
    (⟨shapeValue ops .LERP t, "RCIM_Linear", "RCTM_Break", "RCTWM_WeightedNone",
      0, 0, 0, 0⟩, s)
  | .DRAGON =>
    let (at_, s) := pyUniform rnd (-3/10) (3/10) s
    let (lt, s) := pyUniform rnd (-3/10) (3/10) s
    let (atw, s) := pyUniform rnd (3/10) (7/10) s
    let (ltw, s) := pyUniform rnd (3/10) (7/10) s
    (⟨shapeValue ops .DRAGON t, "RCIM_Cubic", "RCTM_User", "RCTWM_WeightedBoth",
      at_, atw, lt, ltw⟩, s)
  | .CYCLE =>
    let (at_, s) := pyUniform rnd (-2/10) (2/10) s
    let (lt, s) := pyUniform rnd (-2/10) (2/10) s
    let (atw, s) := pyUniform rnd (3/10) (7/10) s
    let (ltw, s) := pyUniform rnd (3/10) (7/10) s
    (⟨shapeValue ops .CYCLE t, "RCIM_Cubic", "RCTM_Auto", "RCTWM_WeightedArrive",
      at_, atw, lt, ltw⟩, s)
  | .RAINBOW =>
    let (at_, s) := pyUniform rnd (-3/10) (3/10) s
    let (lt, s) := pyUniform rnd (-3/10) (3/10) s
    let (atw, s) := pyUniform rnd (3/10) (7/10) s
    let (ltw, s) := pyUniform rnd (3/10) (7/10) s
    (⟨shapeValue ops .RAINBOW t, "RCIM_Cubic", "RCTM_User", "RCTWM_WeightedBoth",
      at_, atw, lt, ltw⟩, s)
  | .EULER_SPIRAL =>
    let (at_, s) := pyUniform rnd (-4/10) (4/10) s
    let (lt, s) := pyUniform rnd (-4/10) (4/10) s
    let (atw, s) := pyUniform rnd (3/10) (7/10) s
    let (ltw, s) := pyUniform rnd (3/10) (7/10) s
    (⟨shapeValue ops .EULER_SPIRAL t, "RCIM_Cubic", "RCTM_User", "RCTWM_WeightedBoth",
      at_, atw, lt, ltw⟩, s)
  | .FIBONACCI_WEIGHTED =>
    let (at_, s) := pyUniform rnd (-5/10) (5/10) s
    let (lt, s) := pyUniform rnd (-5/10) (5/10) s
    let (atw, s) := pyUniform rnd (3/10) (7/10) s
    let (ltw, s) := pyUniform rnd (3/10) (7/10) s
    (⟨shapeValue ops .FIBONACCI_WEIGHTED t, "RCIM_Cubic", "RCTM_User", "RCTWM_WeightedBoth",
      at_, atw, lt, ltw⟩, s)

/-- One fully-populated keyframe as emitted by the synthesizers. -/
structure Key where
  interpMode : String
  tangentMode : String
  tangentWeightMode : String
  time : ℚ
  value : ℚ
  arriveTangent : ℚ
  arriveTangentWeight : ℚ
  leaveTangent : ℚ
  leaveTangentWeight : ℚ

/-- A single-channel float curve as emitted by the synthesizers. -/
structure FloatCurve where
  keys : List Key
  defaultValue : ℚ
  preInfinityExtrap : String
  postInfinityExtrap : String

/-- The float-literal `3.4028234663852886e+38` (FLT_MAX placeholder) used as
`defaultValue` by both synthesizers and as default by the export transform. -/
def fltMaxLit : ℚ := 34028234663852886 * 10 ^ 22

/-- Assemble a keyframe dictionary from a branch output, a time and the final
(post-noise) value, in the field order of the source dict literal. -/
def mkKey (b : BranchOut) (t v : ℚ) : Key :=
  { interpMode := b.interpMode
    tangentMode := b.tangentMode
    tangentWeightMode := b.tangentWeightMode
    time := t
    value := v
    arriveTangent := b.arriveTangent
    arriveTangentWeight := b.arriveTangentWeight
    leaveTangent := b.leaveTangent
    leaveTangentWeight := b.leaveTangentWeight }

/-- The noise amplitude `0.1 / (math.log(num_keys + 1) + 1)` shared by both
synthesizer loops. -/
def noiseRange (ops : MathOps) (num_keys : ℕ) : ℚ :=
  (1/10) / (ops.log ((num_keys : ℚ) + 1) + 1)

/-- One iteration of the key loop of
CurveHelper.generate_random_float_curve: the per-family branch, then noise
drawn uniformly in `[-noise_range, noise_range]` is always added and the sum
clamped to `[0, 1]`. -/
def genKeyRandom (rnd : Rng) (ops : MathOps) (fct : FloatCurveType)
    (num_keys : ℕ) (t : ℚ) (s : RState) : Key × RState :=
  let bs := branchKey rnd ops fct t s
  let nr := noiseRange ops num_keys
  let ns := pyUniform rnd (-nr) nr bs.2
  (mkKey bs.1 t (clamp (bs.1.value + ns.1) 0 1), ns.2)

/-- One iteration of the key loop of CurveHelper.generate_float_curve: the
per-family branch, then noise is added (scaled by `noise_scale` and clamped)
only when `noise_scale ≠ 0`. -/
def genKeyScaled (rnd : Rng) (ops : MathOps) (fct : FloatCurveType)
    (noise_scale : ℚ) (num_keys : ℕ) (t : ℚ) (s : RState) : Key × RState :=
  let bs := branchKey rnd ops fct t s
  if noise_scale ≠ 0 then
    let nr := noiseRange ops num_keys
    let ns := pyUniform rnd (-nr) nr bs.2
    (mkKey bs.1 t (clamp (bs.1.value + ns.1 * noise_scale) 0 1), ns.2)
  else
    (mkKey bs.1 t bs.1.value, bs.2)

/-- The key loop of CurveHelper.generate_random_float_curve over the sorted
time list. -/
def genKeysRandom (rnd : Rng) (ops : MathOps) (fct : FloatCurveType)
    (num_keys : ℕ) : List ℚ → RState → List Key × RState
  | [], s => ([], s)
  | t :: ts, s =>
    let hd := genKeyRandom rnd ops fct num_keys t s
    let tl := genKeysRandom rnd ops fct num_keys ts hd.2
    (hd.1 :: tl.1, tl.2)

/-- The key loop of CurveHelper.generate_float_curve over the sorted time
list. -/
def genKeysScaled (rnd : Rng) (ops : MathOps) (fct : FloatCurveType)
    (noise_scale : ℚ) (num_keys : ℕ) : List ℚ → RState → List Key × RState
  | [], s => ([], s)
  | t :: ts, s =>
    let hd := genKeyScaled rnd ops fct noise_scale num_keys t s
    let tl := genKeysScaled rnd ops fct noise_scale num_keys ts hd.2
    (hd.1 :: tl.1, tl.2)

/-- Draw `n` samples of `random.uniform(0, 1)` in sequence (the generator
expression inside `sorted(...)`). -/
def drawUniforms (rnd : Rng) : ℕ → RState → List ℚ × RState
  | 0, s => ([], s)
  | n + 1, s =>
    let hd := pyUniform rnd 0 1 s
    let tl := drawUniforms rnd n hd.2
    (hd.1 :: tl.1, tl.2)

/-- Python `sorted` on floats, modelled by a stable comparison sort. -/
def sortQ (l : List ℚ) : List ℚ := l.insertionSort (· ≤ ·)

/-- CurveHelper.generate_random_float_curve: optional family choice, key count
drawn by `randint(min_keys, max_keys)`, sorted uniform times, then the key
loop; the curve carries the FLT_MAX default value and constant extrapolation. -/
def generate_random_float_curve (rnd : Rng) (ops : MathOps)
    (min_keys : ℕ := 2) (max_keys : ℕ := 100)
    (float_curve_type : Option FloatCurveType := none) (s : RState) :
    FloatCurve × RState :=
  let fs :=
    match float_curve_type with
    | none => pyChoiceFCT rnd s
    | some f => (f, s)
  let nk := pyRandint rnd min_keys max_keys fs.2
  let us := drawUniforms rnd nk.1 nk.2
  let times := sortQ us.1
  let ks := genKeysRandom rnd ops fs.1 nk.1 times us.2
  ({ keys := ks.1
     defaultValue := fltMaxLit
     preInfinityExtrap := "RCCE_Constant"
     postInfinityExtrap := "RCCE_Constant" }, ks.2)

/-- The per-family default key counts of CurveHelper.generate_float_curve
(`default_key_counts`).  The dictionary covers every member of the enum, so
the `.get` fallback `random.randint(min_keys, max_keys)` is never *used* —
but, being an eager argument, it is always *drawn*. -/
def defaultKeyCount : FloatCurveType → ℕ
  | .PARABOLIC => 120
  | .SINUSOIDAL => 130
  | .EXPONENTIAL => 115
  | .LOGARITHMIC => 115
  | .BELL => 125
  | .CUBIC => 120
  | .STEP => 110
  | .QUADRATIC => 120
  | .HYPERBOLIC => 115
  | .LERP => 110
  | .DRAGON => 140
  | .CYCLE => 130
  | .RAINBOW => 150
  | .EULER_SPIRAL => 135
  | .FIBONACCI_WEIGHTED => 125
  | .RANDOM => 150

/-- CurveHelper.generate_float_curve: optional family choice; for `RANDOM` the
key count is redrawn uniformly in `[2, 100]`, otherwise it is
`int(default * resolution_scale)` clamped to `[2, 100]`; sorted uniform times,
then the scaled key loop.  (The `default_key_counts.get` fallback draw is
consumed and discarded first, mirroring Python's eager default argument.) -/
def generate_float_curve (rnd : Rng) (ops : MathOps)
    (float_curve_type : Option FloatCurveType := none)
    (resolution_scale : ℚ := 1) (noise_scale : ℚ := 0) (s : RState) :
    FloatCurve × RState :=
  let min_keys : ℕ := 2
  let max_keys : ℕ := 100
  let fs :=
    match float_curve_type with
    | none => pyChoiceFCT rnd s
    | some f => (f, s)
  let fallback := pyRandint rnd min_keys max_keys fs.2
  let default_num_keys : ℕ := defaultKeyCount fs.1
  let nk :=
    if fs.1 = .RANDOM then pyRandint rnd min_keys max_keys fallback.2
    else
      (((max (min_keys : ℤ)
          (min (pyInt ((default_num_keys : ℚ) * resolution_scale)) (max_keys : ℤ)))).toNat,
       fallback.2)
  let us := drawUniforms rnd nk.1 nk.2
  let times := sortQ us.1
  let ks := genKeysScaled rnd ops fs.1 noise_scale nk.1 times us.2
  ({ keys := ks.1
     defaultValue := fltMaxLit
     preInfinityExtrap := "RCCE_Constant"
     postInfinityExtrap := "RCCE_Constant" }, ks.2)

/-- Uppercase a string (Python `str.upper()` over ASCII letters). -/
def upperString (str : String) : String := String.mk (str.data.map Char.toUpper)

/-- Lookup of `FloatCurveType[name]` by enum member name; `none` models the
`KeyError` of an unrecognized name. -/
def fctOfName (name : String) : Option FloatCurveType :=
  if name = "PARABOLIC" then some .PARABOLIC
  else if name = "SINUSOIDAL" then some .SINUSOIDAL
  else if name = "EXPONENTIAL" then some .EXPONENTIAL
  else if name = "LOGARITHMIC" then some .LOGARITHMIC
  else if name = "BELL" then some .BELL
  else if name = "CUBIC" then some .CUBIC
  else if name = "STEP" then some .STEP
  else if name = "RANDOM" then some .RANDOM
  else if name = "QUADRATIC" then some .QUADRATIC
  else if name = "HYPERBOLIC" then some .HYPERBOLIC
  else if name = "LERP" then some .LERP
  else if name = "DRAGON" then some .DRAGON
  else if name = "CYCLE" then some .CYCLE
  else if name = "RAINBOW" then some .RAINBOW
  else if name = "EULER_SPIRAL" then some .EULER_SPIRAL
  else if name = "FIBONACCI_WEIGHTED" then some .FIBONACCI_WEIGHTED
  else none

/-- The caller-supplied JSON specification consumed by
CurveHelper.generate_color_curve_from_spec in spec mode; absent dictionary
entries are `none`. -/
structure SpecData where
  name? : Option String := none
  description? : Option String := none
  R_float_curve_type? : Option String := none
  G_float_curve_type? : Option String := none
  B_float_curve_type? : Option String := none
  A_float_curve_type? : Option String := none
  R_resolution_scale? : Option ℚ := none
  G_resolution_scale? : Option ℚ := none
  B_resolution_scale? : Option ℚ := none
  A_resolution_scale? : Option ℚ := none
  R_noise_scale? : Option ℚ := none
  G_noise_scale? : Option ℚ := none
  B_noise_scale? : Option ℚ := none
  A_noise_scale? : Option ℚ := none
  meta_x_offset_curve_type? : Option String := none
  meta_y_offset_curve_type? : Option String := none
  meta_x_resolution_scale? : Option ℚ := none
  meta_y_resolution_scale? : Option ℚ := none
  meta_x_noise_scale? : Option ℚ := none
  meta_y_noise_scale? : Option ℚ := none
  meta_x_offset_scale? : Option ℚ := none
  meta_y_offset_scale? : Option ℚ := none
  randomize_adjustments? : Option ℚ := none

/-- The nested `get_enum` helper of generate_color_curve_from_spec:
`FloatCurveType[json_data.get(json_key, default).upper()]`, falling back to
`PARABOLIC` on the `KeyError` of an unrecognized name. -/
def get_enum (entry : Option String) (default : String) : FloatCurveType :=
  (fctOfName (upperString (entry.getD default))).getD .PARABOLIC

/-- The per-channel float curves of an assembled color curve record. -/
structure ColorCurves where
  R : FloatCurve
  G : FloatCurve
  B : FloatCurve
  A : FloatCurve

/-- The `metaCurves` block of a spec-mode record. -/
structure MetaCurves where
  x_offset_curve : FloatCurve
  y_offset_curve : FloatCurve
  x_offset_scale : ℚ
  y_offset_scale : ℚ

/-- The `curve_json` body of a spec-mode record. -/
structure CurveJson where
  floatCurves : ColorCurves
  adjustHue : ℚ
  adjustSaturation : ℚ
  adjustBrightness : ℚ
  adjustBrightnessCurve : ℚ
  adjustVibrance : ℚ
  adjustMinAlpha : ℚ
  adjustMaxAlpha : ℚ
  created_at : String
  metaCurves : MetaCurves

/-- The final spec-mode record of generate_color_curve_from_spec. -/
structure SpecRecord where
  curve_id : String
  name : String
  description : String
  curve_type_comp : String
  curve_json : CurveJson

/-- Python `str.strip("-")`: remove leading and trailing dash characters. -/
def stripDashes (str : String) : String :=
  String.mk (((str.data.dropWhile (· = '-')).reverse.dropWhile (· = '-')).reverse)

/-- CurveHelper.generate_color_curve_from_spec with `json_data` supplied (spec
mode): per-channel families resolved by `get_enum` with fallback `PARABOLIC`,
channels synthesized in R, G, B, A order by `generate_float_curve` with the
spec's per-channel scales (defaults 1.0 / 0.0), then the two meta offset
curves, then the seven adjustment scalars drawn uniformly in
`[0, randomize_adjustments]` (default 0).  The UUID and the UTC timestamp are
external inputs (`curve_id`, `created_at`); the `append_metadata` side effect
is external to the record and elided. -/
def generate_color_curve_from_spec (rnd : Rng) (ops : MathOps)
    (json_data : SpecData) (curve_id created_at : String) (s : RState) :
    SpecRecord × RState :=
  let typeR := get_enum json_data.R_float_curve_type? "PARABOLIC"
  let typeG := get_enum json_data.G_float_curve_type? "PARABOLIC"
  let typeB := get_enum json_data.B_float_curve_type? "PARABOLIC"
  let typeA := get_enum json_data.A_float_curve_type? "PARABOLIC"
  let cR := generate_float_curve rnd ops (some typeR)
    (json_data.R_resolution_scale?.getD 1) (json_data.R_noise_scale?.getD 0) s
  let cG := generate_float_curve rnd ops (some typeG)
    (json_data.G_resolution_scale?.getD 1) (json_data.G_noise_scale?.getD 0) cR.2
  let cB := generate_float_curve rnd ops (some typeB)
    (json_data.B_resolution_scale?.getD 1) (json_data.B_noise_scale?.getD 0) cG.2
  let cA := generate_float_curve rnd ops (some typeA)
    (json_data.A_resolution_scale?.getD 1) (json_data.A_noise_scale?.getD 0) cB.2
  let cX := generate_float_curve rnd ops
    (some (get_enum json_data.meta_x_offset_curve_type? "PARABOLIC"))
    (json_data.meta_x_resolution_scale?.getD 1) (json_data.meta_x_noise_scale?.getD 0) cA.2
  let cY := generate_float_curve rnd ops
    (some (get_enum json_data.meta_y_offset_curve_type? "PARABOLIC"))
    (json_data.meta_y_resolution_scale?.getD 1) (json_data.meta_y_noise_scale?.getD 0) cX.2
  let radj := json_data.randomize_adjustments?.getD 0
  let aHue := pyUniform rnd 0 radj cY.2
  let aSat := pyUniform rnd 0 radj aHue.2
  let aBri := pyUniform rnd 0 radj aSat.2
  let aBrC := pyUniform rnd 0 radj aBri.2
  let aVib := pyUniform rnd 0 radj aBrC.2
  let aMinA := pyUniform rnd 0 radj aVib.2
  let aMaxA := pyUniform rnd 0 radj aMinA.2
  let curve_type_comp := stripDashes
    ((json_data.name?.getD "Unnamed Curve") ++ "-"
      ++ (json_data.R_float_curve_type?.getD "") ++ "-"
      ++ (json_data.G_float_curve_type?.getD "") ++ "-"
      ++ (json_data.B_float_curve_type?.getD "") ++ "-"
      ++ (json_data.A_float_curve_type?.getD ""))
  ({ curve_id := curve_id
     name := json_data.name?.getD "Unnamed Curve"
     description := json_data.description?.getD ""
     curve_type_comp := curve_type_comp
     curve_json :=
      { floatCurves := { R := cR.1, G := cG.1, B := cB.1, A := cA.1 }
        adjustHue := aHue.1
        adjustSaturation := aSat.1
        adjustBrightness := aBri.1
        adjustBrightnessCurve := aBrC.1
        adjustVibrance := aVib.1
        adjustMinAlpha := aMinA.1
        adjustMaxAlpha := aMaxA.1
        created_at := created_at
        metaCurves :=
          { x_offset_curve := cX.1
            y_offset_curve := cY.1
            x_offset_scale := json_data.meta_x_offset_scale?.getD 0
            y_offset_scale := json_data.meta_y_offset_scale?.getD 0 } } }, aMaxA.2)

/-- A JSON-like value, modelling the dictionaries that
CurveHelper.convert_to_UE_output_format consumes and produces (the
`json.loads` / `json.dumps` round-trip is the identity on this model). -/
inductive J where
  | num : ℚ → J
  | str : String → J
  | arr : List J → J
  | obj : List (String × J) → J

/-- Dictionary lookup `data.get(key)` on a JSON object; `none` on a missing
key or a non-object. -/
def objGet (j : J) (key : String) : Option J :=
  match j with
  | .obj kvs => (kvs.find? fun kv => kv.1 = key).map (·.2)
  | _ => none

/-- Serialize one synthesized keyframe in the field order of the source dict
literal. -/
def keyToJ (k : Key) : J :=
  .obj [("interpMode", .str k.interpMode),
        ("tangentMode", .str k.tangentMode),
        ("tangentWeightMode", .str k.tangentWeightMode),
        ("time", .num k.time),
        ("value", .num k.value),
        ("arriveTangent", .num k.arriveTangent),
        ("arriveTangentWeight", .num k.arriveTangentWeight),
        ("leaveTangent", .num k.leaveTangent),
        ("leaveTangentWeight", .num k.leaveTangentWeight)]

/-- Serialize one synthesized float curve in the field order of the source
dict literal. -/
def floatCurveToJ (fc : FloatCurve) : J :=
  .obj [("keys", .arr (fc.keys.map keyToJ)),
        ("defaultValue", .num fc.defaultValue),
        ("preInfinityExtrap", .str fc.preInfinityExtrap),
        ("postInfinityExtrap", .str fc.postInfinityExtrap)]

/-- The serialized `curve_json` body assembled by
CurveHelper.generate_random_color_curve (lines 654–662): the channel-keyed
`floatCurves` mapping, the seven adjustment scalars, the `assetImportData`
stub, and the `created_at` timestamp, in construction order. -/
def assembledCurveJson (cc : ColorCurves)
    (adjustHue adjustSaturation adjustBrightness adjustBrightnessCurve
      adjustVibrance adjustMinAlpha adjustMaxAlpha : ℚ)
    (created_at : String) : J :=
  .obj [("floatCurves", .obj [("R", floatCurveToJ cc.R), ("G", floatCurveToJ cc.G),
                              ("B", floatCurveToJ cc.B), ("A", floatCurveToJ cc.A)]),
        ("adjustHue", .num adjustHue),
        ("adjustSaturation", .num adjustSaturation),
        ("adjustBrightness", .num adjustBrightness),
        ("adjustBrightnessCurve", .num adjustBrightnessCurve),
        ("adjustVibrance", .num adjustVibrance),
        ("adjustMinAlpha", .num adjustMinAlpha),
        ("adjustMaxAlpha", .num adjustMaxAlpha),
        ("assetImportData", .obj [("_ClassName", .str "/Script/Engine.AssetImportData"),
                                  ("sourceData", .obj [])]),
        ("created_at", .str created_at)]

/-- Rebuild one channel entry of the output `floatCurves` list, with the
source's per-field defaults. -/
def ueChannel (c : J) : J :=
  .obj [("keys", (objGet c "keys").getD (.arr [])),
        ("defaultValue", (objGet c "defaultValue").getD (.num fltMaxLit)),
        ("preInfinityExtrap", (objGet c "preInfinityExtrap").getD (.str "RCCE_Constant")),
        ("postInfinityExtrap", (objGet c "postInfinityExtrap").getD (.str "RCCE_Constant"))]

/-- CurveHelper.convert_to_UE_output_format: reshape the channel-keyed
`floatCurves` mapping into a list in fixed R, G, B, A order (present channels
only), and copy the seven adjustment scalars and `assetImportData` with
defaults; no other input field is emitted. -/
def convert_to_UE_output_format (input : J) : J :=
  let float_curves := (objGet input "floatCurves").getD (.obj [])
  .obj [("floatCurves", .arr ((["R", "G", "B", "A"].filterMap
          fun ch => (objGet float_curves ch).map ueChannel))),
        ("adjustHue", (objGet input "adjustHue").getD (.num 0)),
        ("adjustSaturation", (objGet input "adjustSaturation").getD (.num 0)),
        ("adjustBrightness", (objGet input "adjustBrightness").getD (.num 0)),
        ("adjustBrightnessCurve", (objGet input "adjustBrightnessCurve").getD (.num 0)),
        ("adjustVibrance", (objGet input "adjustVibrance").getD (.num 0)),
        ("adjustMinAlpha", (objGet input "adjustMinAlpha").getD (.num 0)),
        ("adjustMaxAlpha", (objGet input "adjustMaxAlpha").getD (.num 0)),
        ("assetImportData", (objGet input "assetImportData").getD (.obj []))]

theorem clamp01_nonneg (v : ℚ) : 0 ≤ clamp v 0 1 := le_max_left 0 _

theorem clamp01_le_one (v : ℚ) : clamp v 0 1 ≤ 1 :=
  max_le (by norm_num) (min_le_right v 1)

theorem foldl_min_le_init (t : List ℚ) (a : ℚ) : t.foldl min a ≤ a := by
  induction t generalizing a with
  | nil => simp
  | cons b t ih => exact le_trans (ih (min a b)) (min_le_left a b)

theorem foldl_min_le_mem (t : List ℚ) (a x : ℚ) (hx : x ∈ t) : t.foldl min a ≤ x := by
  induction t generalizing a with
  | nil => cases hx
  | cons b t ih =>
    rcases List.mem_cons.mp hx with h | h
    · subst h
      exact le_trans (foldl_min_le_init t (min a x)) (min_le_right a x)
    · exact ih (min a b) h

theorem pyMin_le (l : List ℚ) (x : ℚ) (hx : x ∈ l) : pyMin l ≤ x := by
  cases l with
  | nil => cases hx
  | cons h t =>
    rcases List.mem_cons.mp hx with hh | hh
    · subst hh; exact foldl_min_le_init t x
    · exact foldl_min_le_mem t h x hh

theorem init_le_foldl_max (t : List ℚ) (a : ℚ) : a ≤ t.foldl max a := by
  induction t generalizing a with
  | nil => simp
  | cons b t ih => exact le_trans (le_max_left a b) (ih (max a b))

theorem mem_le_foldl_max (t : List ℚ) (a x : ℚ) (hx : x ∈ t) : x ≤ t.foldl max a := by
  induction t generalizing a with
  | nil => cases hx
  | cons b t ih =>
    rcases List.mem_cons.mp hx with h | h
    · subst h
      exact le_trans (le_max_right a x) (init_le_foldl_max t (max a x))
    · exact ih (max a b) h

theorem le_pyMax (l : List ℚ) (x : ℚ) (hx : x ∈ l) : x ≤ pyMax l := by
  cases l with
  | nil => cases hx
  | cons h t =>
    rcases List.mem_cons.mp hx with hh | hh
    · subst hh; exact init_le_foldl_max t x
    · exact mem_le_foldl_max t h x hh

theorem allcloseConst_false_exists {l : List ℚ} {b : ℚ}
    (h : allcloseConst l b = false) :
    ∃ a ∈ l, ¬ |a - b| ≤ 1/100000000 + 1/100000 * |b| := by
  by_contra hc
  push_neg at hc
  have : allcloseConst l b = true := by
    unfold allcloseConst
    rw [List.all_eq_true]
    intro a ha
    exact decide_eq_true (hc a ha)
  simp [this] at h

theorem far_from_ne {a b : ℚ} (h : ¬ |a - b| ≤ 1/100000000 + 1/100000 * |b|) :
    a ≠ b := by
  intro he
  subst he
  have hb : (0 : ℚ) ≤ |a| := abs_nonneg a
  simp only [sub_self, abs_zero] at h
  exact h (by positivity)

/-- A failed `allclose` check on a nonempty list forces a strict spread between
the minimum and the maximum. -/
theorem pyMin_lt_pyMax_of_allclose_false {l : List ℚ} {a0 : ℚ} {t : List ℚ}
    (hl : l = a0 :: t) (h : allcloseConst l a0 = false) : pyMin l < pyMax l := by
  obtain ⟨a, ha, hfar⟩ := allcloseConst_false_exists h
  have hne : a ≠ a0 := far_from_ne hfar
  have h0 : a0 ∈ l := by rw [hl]; exact List.mem_cons_self a0 t
  rcases lt_or_gt_of_ne hne with hlt | hgt
  · exact lt_of_le_of_lt (pyMin_le l a ha) (lt_of_lt_of_le hlt (le_pyMax l a0 h0))
  · exact lt_of_le_of_lt (pyMin_le l a0 h0) (lt_of_lt_of_le hgt (le_pyMax l a ha))

theorem cumsum_chain {l : List ℤ} (h : ∀ x ∈ l, 0 ≤ x) :
    List.Chain' (· ≤ ·) (cumsum l) := by
  induction l with
  | nil => simp [cumsum]
  | cons a l ih =>
    have hl : ∀ x ∈ l, 0 ≤ x := fun x hx => h x (List.mem_cons_of_mem a hx)
    have hc := ih hl
    cases l with
    | nil => simp [cumsum]
    | cons b l' =>
      simp only [cumsum, List.map_cons]
      refine List.Chain'.cons ?_ ?_
      · have hb : 0 ≤ b := h b (by simp)
        linarith
      · have hmapc : List.Chain' (· ≤ ·) ((cumsum (b :: l')).map (a + ·)) := by
          rw [List.chain'_map]
          exact List.Chain'.imp (fun x y hxy => by linarith) hc
        simpa [cumsum, List.map_cons] using hmapc

theorem cumsum_cons_getLast (l : List ℤ) (a : ℤ) :
    (cumsum (a :: l)).getLast? = some ((a :: l).sum) := by
  induction l generalizing a with
  | nil => simp [cumsum]
  | cons b l' ih =>
    have hmap : ((cumsum (b :: l')).map (a + ·)).getLast? = some (a + (b :: l').sum) := by
      rw [List.getLast?_map, ih b]
      rfl
    have hstep : (cumsum (a :: b :: l')).getLast?
        = ((cumsum (b :: l')).map (a + ·)).getLast? := by
      show (a :: (cumsum (b :: l')).map (a + ·)).getLast? = _
      simp only [cumsum, List.map_cons, List.getLast?_cons_cons]
    rw [hstep, hmap]
    simp [List.sum_cons, add_assoc]

theorem cumsum_getLast {l : List ℤ} (h : l ≠ []) :
    (cumsum l).getLast? = some l.sum := by
  cases l with
  | nil => cases h rfl
  | cons a l => exact cumsum_cons_getLast l a

theorem fields?_eq_none_of_mem {f : RawKey → Option ℚ} {ks : List RawKey}
    {k : RawKey} (hk : k ∈ ks) (hf : f k = none) : fields? f ks = none := by
  induction ks with
  | nil => cases hk
  | cons a ks ih =>
    rcases List.mem_cons.mp hk with h | h
    · subst h; simp [fields?, hf]
    · cases hfa : f a with
      | none => simp [fields?, hfa]
      | some v => simp [fields?, hfa, ih h]

theorem fields?_length {f : RawKey → Option ℚ} :
    ∀ {ks : List RawKey} {vs : List ℚ}, fields? f ks = some vs → vs.length = ks.length := by
  intro ks
  induction ks with
  | nil => intro vs h; simp [fields?] at h; simp [← h]
  | cons a ks ih =>
    intro vs h
    cases hfa : f a with
    | none => simp [fields?, hfa] at h
    | some v =>
      cases hrest : fields? f ks with
      | none => simp [fields?, hfa, hrest] at h
      | some vs' =>
        simp [fields?, hfa, hrest] at h
        subst h
        simp [ih hrest]

theorem fields?_get {f : RawKey → Option ℚ} :
    ∀ {ks : List RawKey} {vs : List ℚ}, fields? f ks = some vs →
    ∀ (i : ℕ) (hi : i < ks.length) (hj : i < vs.length),
      f (ks.get ⟨i, hi⟩) = some (vs.get ⟨i, hj⟩) := by
  intro ks
  induction ks with
  | nil => intro vs _ i hi; cases (Nat.not_lt_zero i) hi
  | cons a ks ih =>
    intro vs h i hi hj
    cases hfa : f a with
    | none => simp [fields?, hfa] at h
    | some v =>
      cases hrest : fields? f ks with
      | none => simp [fields?, hfa, hrest] at h
      | some vs' =>
        simp [fields?, hfa, hrest] at h
        subst h
        cases i with
        | zero => simpa using hfa
        | succ n =>
          exact ih hrest n (Nat.lt_of_succ_lt_succ hi) (Nat.lt_of_succ_lt_succ hj)

/-- The malformed-keyframe conditions that make `extract_curve_data` raise the
(caught) `KeyError`: a missing usable `value` on any key, or — on a curve that
does not take the single-keyframe shortcut — a missing usable `time`. -/
def malformedKeys (ks : List RawKey) : Prop :=
  (∃ k ∈ ks, k.value? = none) ∨ (ks.length ≠ 1 ∧ ∃ k ∈ ks, k.time? = none)

theorem extract_error_of_malformed {ks : List RawKey} {eps : ℚ}
    (h : malformedKeys ks) : extract_curve_data ks eps = .error .keyError := by
  rcases h with ⟨k, hk, hv⟩ | ⟨hlen, k, hk, ht⟩
  · by_cases h1 : ks.length = 1
    · cases ks with
      | nil => simp at h1
      | cons a ks' =>
        have : ks' = [] := by
          cases ks' with
          | nil => rfl
          | cons b l => simp at h1
        subst this
        have : k = a := by simpa using hk
        subst this
        simp [extract_curve_data, hv]
    · have hvals : fields? (fun k => k.value?) ks = none :=
        fields?_eq_none_of_mem hk hv
      cases htimes : fields? (fun k => k.time?) ks with
      | none => simp [extract_curve_data, h1, htimes]
      | some ts => simp [extract_curve_data, h1, htimes, hvals]
  · have htimes : fields? (fun k => k.time?) ks = none :=
      fields?_eq_none_of_mem hk ht
    simp [extract_curve_data, hlen, htimes]

theorem extract_error_keyError {ks : List RawKey} {eps : ℚ} {e : PyErr}
    (h : extract_curve_data ks eps = .error e) : e = .keyError := by
  by_cases h1 : ks.length = 1
  · cases hh : ks.head? with
    | none => simp [extract_curve_data, h1, hh] at h; exact h.symm
    | some k =>
      cases hv : k.value? with
      | none => simp [extract_curve_data, h1, hh, hv] at h; exact h.symm
      | some v => simp [extract_curve_data, h1, hh, hv] at h
  · cases htimes : fields? (fun k => k.time?) ks with
    | none => simp [extract_curve_data, h1, htimes] at h; exact h.symm
    | some ts =>
      cases hvals : fields? (fun k => k.value?) ks with
      | none => simp [extract_curve_data, h1, htimes, hvals] at h; exact h.symm
      | some vs => simp [extract_curve_data, h1, htimes, hvals] at h

/-- The malformed-channel conditions of the failure contract: the channel dict
has no usable `keys` entry, or its keyframe list is malformed. -/
def malformedCurve (c : RawCurve) : Prop :=
  c.keys? = none ∨ ∃ ks, c.keys? = some ks ∧ malformedKeys ks

theorem except_error_bind {α β : Type} (e : PyErr) (f : α → Except PyErr β) :
    (Except.error e >>= f) = Except.error e := rfl

theorem except_ok_bind {α β : Type} (a : α) (f : α → Except PyErr β) :
    (Except.ok a >>= f) = f a := rfl

theorem chanExtract_error_of_malformed {c : RawCurve}
    (h : malformedCurve c) :
    (channelKeys (some c) >>= fun ks => extract_curve_data ks) = .error .keyError := by
  rcases h with hk | ⟨ks, hks, hmal⟩
  · simp [channelKeys, hk]
    rfl
  · simp only [channelKeys, hks]
    show extract_curve_data ks = Except.error PyErr.keyError
    exact extract_error_of_malformed hmal

theorem chanExtract_error_keyError {c? : Option RawCurve} {e : PyErr}
    (h : (channelKeys c? >>= fun ks => extract_curve_data ks) = .error e) :
    e = .keyError := by
  cases c? with
  | none => simp [channelKeys, except_error_bind] at h; exact h.symm
  | some c =>
    cases hks : c.keys? with
    | none => simp [channelKeys, hks, except_error_bind] at h; exact h.symm
    | some ks =>
      simp only [channelKeys, hks, except_ok_bind] at h
      exact extract_error_keyError h

/-- Absence of at least one of the four required channels. -/
def missingChannel (fcs : RawCurves) : Prop :=
  fcs.R? = none ∨ fcs.G? = none ∨ fcs.B? = none ∨ fcs.A? = none

/-- Presence of a channel whose keyframe data is malformed. -/
def hasMalformedChannel (fcs : RawCurves) : Prop :=
  (∃ c, fcs.R? = some c ∧ malformedCurve c) ∨
  (∃ c, fcs.G? = some c ∧ malformedCurve c) ∨
  (∃ c, fcs.B? = some c ∧ malformedCurve c) ∨
  (∃ c, fcs.A? = some c ∧ malformedCurve c)

theorem extractChannels_error_of_malformed {fcs : RawCurves}
    (h : hasMalformedChannel fcs) : extractChannels fcs = .error .keyError := by
  have step : ∀ (c : RawCurve) (c? : Option RawCurve), c? = some c → malformedCurve c →
      (channelKeys c? >>= fun ks => extract_curve_data ks) = .error .keyError := by
    intro c c? hc hm
    rw [hc]
    exact chanExtract_error_of_malformed hm
  rcases h with ⟨c, hc, hm⟩ | ⟨c, hc, hm⟩ | ⟨c, hc, hm⟩ | ⟨c, hc, hm⟩
  · unfold extractChannels
    rw [step c _ hc hm]
    rfl
  · unfold extractChannels
    cases h1 : (channelKeys fcs.R? >>= fun ks => extract_curve_data ks) with
    | error e => have he := chanExtract_error_keyError h1; subst he; rfl
    | ok rd =>
      rw [except_ok_bind, step c _ hc hm]
      rfl
  · unfold extractChannels
    cases h1 : (channelKeys fcs.R? >>= fun ks => extract_curve_data ks) with
    | error e => have he := chanExtract_error_keyError h1; subst he; rfl
    | ok rd =>
      rw [except_ok_bind]
      cases h2 : (channelKeys fcs.G? >>= fun ks => extract_curve_data ks) with
      | error e => have he := chanExtract_error_keyError h2; subst he; rfl
      | ok gd =>
        rw [except_ok_bind, step c _ hc hm]
        rfl
  · unfold extractChannels
    cases h1 : (channelKeys fcs.R? >>= fun ks => extract_curve_data ks) with
    | error e => have he := chanExtract_error_keyError h1; subst he; rfl
    | ok rd =>
      rw [except_ok_bind]
      cases h2 : (channelKeys fcs.G? >>= fun ks => extract_curve_data ks) with
      | error e => have he := chanExtract_error_keyError h2; subst he; rfl
      | ok gd =>
        rw [except_ok_bind]
        cases h3 : (channelKeys fcs.B? >>= fun ks => extract_curve_data ks) with
        | error e => have he := chanExtract_error_keyError h3; subst he; rfl
        | ok bd =>
          rw [except_ok_bind, step c _ hc hm]
          rfl

theorem thumbnailBody_error_of_malformed (ops : MathOps) {fcs : RawCurves}
    (tb : Bool) (h : hasMalformedChannel fcs) :
    thumbnailBody ops fcs tb = .error .keyError := by
  unfold thumbnailBody
  rw [extractChannels_error_of_malformed h]
  rfl

theorem grayscaleRowBody_error_of_malformed {fcs : RawCurves} (width : ℕ)
    (h : hasMalformedChannel fcs) :
    grayscaleRowBody fcs width = .error .keyError := by
  unfold grayscaleRowBody
  rw [extractChannels_error_of_malformed h]
  rfl

theorem missing_if_cond_true {fcs : RawCurves} (h : missingChannel fcs) :
    (fcs.R?.isNone ∨ fcs.G?.isNone ∨ fcs.B?.isNone ∨ fcs.A?.isNone) := by
  rcases h with h | h | h | h
  · exact Or.inl (by simp [h])
  · exact Or.inr (Or.inl (by simp [h]))
  · exact Or.inr (Or.inr (Or.inl (by simp [h])))
  · exact Or.inr (Or.inr (Or.inr (by simp [h])))

theorem missing_if_cond_false {fcs : RawCurves} (h : ¬ missingChannel fcs) :
    ¬ (fcs.R?.isNone ∨ fcs.G?.isNone ∨ fcs.B?.isNone ∨ fcs.A?.isNone) := by
  intro hc
  apply h
  rcases hc with hc | hc | hc | hc
  · exact Or.inl (Option.isNone_iff_eq_none.mp hc)
  · exact Or.inr (Or.inl (Option.isNone_iff_eq_none.mp hc))
  · exact Or.inr (Or.inr (Or.inl (Option.isNone_iff_eq_none.mp hc)))
  · exact Or.inr (Or.inr (Or.inr (Option.isNone_iff_eq_none.mp hc)))

/-- C1: for every curve record that is missing at least one of the four
channels R, G, B, A, or whose keyframe data is malformed (a channel without a
usable `keys` entry, a keyframe without a usable `value`, or — off the
single-keyframe shortcut — a keyframe without a usable `time`), rasterization
returns the `(None, None)` outcome (the image and the gradient statistics are
absent together: the result type is an `Option` of the *pair*, so no partial
result exists), and the row-integral computation returns `None`. -/
theorem rasterizeAndIntegralFailureContract
    (ops : MathOps) (tb : Bool) (width : ℕ) (rec : RawRecord) (fcs : RawCurves)
    (hfc : rec.floatCurves? = some fcs)
    (hbad : missingChannel fcs ∨ hasMalformedChannel fcs) :
    generate_thumbnail_from_curve ops rec tb = .ok none ∧
    compute_integral_from_curve_json rec width = none := by
  by_cases hmiss : missingChannel fcs
  · constructor
    · simp only [generate_thumbnail_from_curve, hfc]
      rw [if_pos (missing_if_cond_true hmiss)]
    · simp only [compute_integral_from_curve_json, grayscaleRow, hfc]
      rw [if_pos (missing_if_cond_true hmiss)]
      rfl
  · have hmal : hasMalformedChannel fcs := by
      rcases hbad with h | h
      · exact absurd h hmiss
      · exact h
    constructor
    · simp only [generate_thumbnail_from_curve, hfc]
      rw [if_neg (missing_if_cond_false hmiss),
        thumbnailBody_error_of_malformed ops tb hmal]
    · simp only [compute_integral_from_curve_json, grayscaleRow, hfc]
      rw [if_neg (missing_if_cond_false hmiss),
        grayscaleRowBody_error_of_malformed width hmal]
      rfl

/-- Witness for C1: a concrete record with the B channel missing, and one with
a malformed keyframe (a key whose `value` entry is unusable), both rejected by
both operations. -/
theorem rasterizeAndIntegralFailureContractWitness :
    (generate_thumbnail_from_curve
        { pi := 0, e := 0, sin := fun _ => 0, exp := fun _ => 0, log := fun _ => 0,
          log1p := fun _ => 0, fresnelC := fun _ => 0, powPhi := fun _ => 0,
          sqrt := fun _ => 0 }
        ⟨some ⟨some ⟨some []⟩, some ⟨some []⟩, none, some ⟨some []⟩⟩⟩ false = .ok none ∧
      compute_integral_from_curve_json
        ⟨some ⟨some ⟨some []⟩, some ⟨some []⟩, none, some ⟨some []⟩⟩⟩ 128 = none) ∧
    (generate_thumbnail_from_curve
        { pi := 0, e := 0, sin := fun _ => 0, exp := fun _ => 0, log := fun _ => 0,
          log1p := fun _ => 0, fresnelC := fun _ => 0, powPhi := fun _ => 0,
          sqrt := fun _ => 0 }
        ⟨some ⟨some ⟨some [⟨some 0, none⟩]⟩, some ⟨some []⟩, some ⟨some []⟩,
          some ⟨some []⟩⟩⟩ false = .ok none ∧
      compute_integral_from_curve_json
        ⟨some ⟨some ⟨some [⟨some 0, none⟩]⟩, some ⟨some []⟩, some ⟨some []⟩,
          some ⟨some []⟩⟩⟩ 128 = none) :=
  ⟨rasterizeAndIntegralFailureContract _ false 128 _ _ rfl
      (Or.inl (Or.inr (Or.inr (Or.inl rfl)))),
   rasterizeAndIntegralFailureContract _ false 128 _ _ rfl
      (Or.inr (Or.inl ⟨_, rfl, Or.inr ⟨_, rfl, Or.inl ⟨⟨some 0, none⟩, by simp, rfl⟩⟩⟩))⟩

/-- C9: on every nonempty resampled alpha array, if the initial `allclose`
equality check fails then the minimum and maximum of the samples are strictly
different, so the flat-255 degenerate guard branch is skipped (the remap
branch runs) and its division by `max - min` is never a division by zero. -/
theorem alphaRemapDegenerateGuardUnreachable (l : List ℚ) (a0 : ℚ) (t : List ℚ)
    (hl : l = a0 :: t) (hfalse : allcloseConst l a0 = false) :
    pyMin l ≠ pyMax l ∧
    process_alpha_channel l =
      .ok (l.map fun a => (pyInt (remap a (pyMin l) (pyMax l) 0 255) : ℚ)) := by
  have hlt := pyMin_lt_pyMax_of_allclose_false hl hfalse
  refine ⟨ne_of_lt hlt, ?_⟩
  subst hl
  simp only [process_alpha_channel, hfalse]
  rw [if_neg (ne_of_lt hlt)]
  simp

/-- Witness for C9 at the concrete array `[0, 1]`. -/
theorem alphaRemapDegenerateGuardUnreachableWitness :
    allcloseConst [(0 : ℚ), 1] 0 = false ∧
    (pyMin [(0 : ℚ), 1] ≠ pyMax [(0 : ℚ), 1] ∧
      process_alpha_channel [(0 : ℚ), 1] =
        .ok ([(0 : ℚ), 1].map fun a =>
          (pyInt (remap a (pyMin [(0 : ℚ), 1]) (pyMax [(0 : ℚ), 1]) 0 255) : ℚ))) :=
  ⟨by norm_num [allcloseConst],
   alphaRemapDegenerateGuardUnreachable [(0 : ℚ), 1] 0 [1] rfl
     (by norm_num [allcloseConst])⟩

/-- Counterexample for C3: on the all-equal alpha array with common value
`v = 0.999`, the code emits the flat value `int(v * 255) = 254` (truncation),
while the claimed `round(v × 255)` is 255. -/
theorem alphaRemapRoundCounterexample :
    process_alpha_channel [(999 : ℚ)/1000, 999/1000] = .ok [254, 254] ∧
    ((round (((999 : ℚ)/1000) * 255) : ℤ) : ℚ) = 255 ∧
    (254 : ℚ) ≠ 255 := by
  refine ⟨?_, ?_, by norm_num⟩
  · have hq : allcloseConst [(999 : ℚ)/1000, 999/1000] (999/1000) = true := by
      norm_num [allcloseConst]
      positivity
    simp only [process_alpha_channel, hq]
    norm_num [pyInt]
  · norm_num [round_eq]

/-- C3 (amended): for every nonempty resampled alpha signal, if all samples
are numerically equal (`np.allclose`) to the first one with common value `v`,
the remap produces a flat output equal to `int(v × 255)` — truncation toward
zero, not rounding; 0.4 still yields 102 — at every sample; otherwise the
sampled range `[min, max]` is linearly remapped to `[0, 255]` and truncated
(not rounded) to 8-bit. -/
theorem alphaRemapTruncation (l : List ℚ) (a0 : ℚ) (t : List ℚ) (hl : l = a0 :: t) :
    (allcloseConst l a0 = true →
      process_alpha_channel l = .ok (l.map fun _ => (pyInt (a0 * 255) : ℚ))) ∧
    (allcloseConst l a0 = false →
      process_alpha_channel l =
        .ok (l.map fun a => (pyInt (remap a (pyMin l) (pyMax l) 0 255) : ℚ))) := by
  constructor
  · intro htrue
    subst hl
    simp only [process_alpha_channel, htrue]
    simp
  · intro hfalse
    have hlt := pyMin_lt_pyMax_of_allclose_false hl hfalse
    subst hl
    simp only [process_alpha_channel, hfalse]
    rw [if_neg (ne_of_lt hlt)]
    simp

/-- Witness for C3 at the all-equal array with value 0.4: the flat output is
`int(0.4 × 255) = 102`. -/
theorem alphaRemapTruncationWitness :
    ((allcloseConst [(2 : ℚ)/5, 2/5] (2/5) = true →
        process_alpha_channel [(2 : ℚ)/5, 2/5] =
          .ok ([(2 : ℚ)/5, 2/5].map fun _ => (pyInt ((2/5) * 255) : ℚ))) ∧
      (allcloseConst [(2 : ℚ)/5, 2/5] (2/5) = false →
        process_alpha_channel [(2 : ℚ)/5, 2/5] =
          .ok ([(2 : ℚ)/5, 2/5].map fun a =>
            (pyInt (remap a (pyMin [(2 : ℚ)/5, 2/5]) (pyMax [(2 : ℚ)/5, 2/5]) 0 255) : ℚ)))) ∧
    pyInt ((2/5 : ℚ) * 255) = 102 :=
  ⟨alphaRemapTruncation [(2 : ℚ)/5, 2/5] (2/5) [2/5] rfl,
   by rw [pyInt]; norm_num⟩

/-- C10: the snap-to-zero of values within `1e-6` of zero happens only on the
multi-keyframe path of `extract_curve_data`: a single-keyframe curve with
value `v`, `0 < |v| < 1e-6`, extracts to times `[0, 1]` and the value `v`
unmodified, whereas on any curve off the single-keyframe shortcut a keyframe
holding the same value comes out as exactly 0. -/
theorem snapToZeroSingleVsMulti (v : ℚ) (o : Option ℚ)
    (h0 : 0 < |v|) (heps : |v| < 1/1000000) :
    extract_curve_data [⟨o, some v⟩] = .ok ([0, 1], [v, v]) ∧
    (∀ (ks : List RawKey) (times values : List ℚ) (i : ℕ) (hi : i < ks.length),
      ks.length ≠ 1 →
      extract_curve_data ks = .ok (times, values) →
      (ks.get ⟨i, hi⟩).value? = some v →
      ∃ hj : i < values.length, values.get ⟨i, hj⟩ = 0) := by
  constructor
  · simp [extract_curve_data]
  · intro ks times values i hi hlen hex hv
    cases htimes : fields? (fun k => k.time?) ks with
    | none => simp [extract_curve_data, hlen, htimes] at hex
    | some ts =>
      cases hvals : fields? (fun k => k.value?) ks with
      | none => simp [extract_curve_data, hlen, htimes, hvals] at hex
      | some vsraw =>
        simp only [extract_curve_data, if_neg hlen, htimes, hvals, Except.ok.injEq,
          Prod.mk.injEq] at hex
        obtain ⟨-, hvalues⟩ := hex
        subst hvalues
        have hvl : vsraw.length = ks.length := fields?_length hvals
        have hj' : i < vsraw.length := by rw [hvl]; exact hi
        have hj : i < (vsraw.map fun v => if |v| < 1/1000000 then 0 else v).length := by
          rw [List.length_map]; exact hj'
        refine ⟨hj, ?_⟩
        have hget := fields?_get hvals i hi hj'
        rw [hv] at hget
        have hraw : vsraw.get ⟨i, hj'⟩ = v := (Option.some.inj hget).symm
        simp only [List.get_map]
        rw [hraw, if_pos heps]

/-- Witness for C10 at `v = 1 / 2000000`. -/
theorem snapToZeroSingleVsMultiWitness :
    0 < |(1 : ℚ)/2000000| ∧ |(1 : ℚ)/2000000| < 1/1000000 ∧
    extract_curve_data [⟨none, some ((1 : ℚ)/2000000)⟩] =
      .ok ([0, 1], [(1 : ℚ)/2000000, 1/2000000]) :=
  ⟨abs_pos.mpr (by norm_num),
   by rw [abs_of_pos (by norm_num : (0 : ℚ) < 1/2000000)]; norm_num,
   (snapToZeroSingleVsMulti ((1 : ℚ)/2000000) none (abs_pos.mpr (by norm_num))
     (by rw [abs_of_pos (by norm_num : (0 : ℚ) < 1/2000000)]; norm_num)).1⟩

/-- C7: whenever the grayscale row of a record with all four channels present
is produced with all samples non-negative, the returned row integral is its
cumulative sum, monotonically non-decreasing along the row, and its last
element equals the sum of all per-sample grayscale values. -/
theorem rowIntegralMonotoneAndTotal (rec : RawRecord) (width : ℕ) (gs : List ℤ)
    (hgs : grayscaleRow rec width = some gs)
    (hnn : ∀ x ∈ gs, 0 ≤ x) (hne : gs ≠ []) :
    compute_integral_from_curve_json rec width = some (cumsum gs) ∧
    List.Chain' (· ≤ ·) (cumsum gs) ∧
    (cumsum gs).getLast? = some gs.sum :=
  ⟨by simp [compute_integral_from_curve_json, hgs], cumsum_chain hnn, cumsum_getLast hne⟩

/-- Witness for C7: the record whose four channels are single-keyframe curves
of constant value 1/2 has, at width 2, the grayscale row `[63, 63]` and the
row integral `[63, 126]`. -/
theorem rowIntegralMonotoneAndTotalWitness :
    grayscaleRow
        ⟨some ⟨some ⟨some [⟨some 0, some (1/2)⟩]⟩, some ⟨some [⟨some 0, some (1/2)⟩]⟩,
          some ⟨some [⟨some 0, some (1/2)⟩]⟩, some ⟨some [⟨some 0, some (1/2)⟩]⟩⟩⟩ 2 =
      some [63, 63] ∧
    compute_integral_from_curve_json
        ⟨some ⟨some ⟨some [⟨some 0, some (1/2)⟩]⟩, some ⟨some [⟨some 0, some (1/2)⟩]⟩,
          some ⟨some [⟨some 0, some (1/2)⟩]⟩, some ⟨some [⟨some 0, some (1/2)⟩]⟩⟩⟩ 2 =
      some (cumsum [63, 63]) ∧
    List.Chain' (· ≤ ·) (cumsum [63, 63]) ∧
    (cumsum [63, 63]).getLast? = some ([63, 63] : List ℤ).sum := by
  have hgs : grayscaleRow
      ⟨some ⟨some ⟨some [⟨some 0, some (1/2)⟩]⟩, some ⟨some [⟨some 0, some (1/2)⟩]⟩,
        some ⟨some [⟨some 0, some (1/2)⟩]⟩, some ⟨some [⟨some 0, some (1/2)⟩]⟩⟩⟩ 2 =
      some [63, 63] := by
    have hex : extract_curve_data [(⟨some 0, some (1/2)⟩ : RawKey)] =
        .ok ([0, 1], [1/2, 1/2]) := by
      simp [extract_curve_data]
    have hlin : linspace 2 = [0, 1] := by
      norm_num [linspace, List.range_succ]
    have hres : resample 2 [0, 1] [1/2, 1/2] = .ok [1/2, 1/2] := by
      rw [resample]
      norm_num [hlin, npInterp]
    have halpha : process_alpha_channel [(1 : ℚ)/2, 1/2] = .ok [127, 127] := by
      have hq : allcloseConst [(1 : ℚ)/2, 1/2] (1/2) = true := by
        norm_num [allcloseConst]
        positivity
      simp only [process_alpha_channel, hq]
      norm_num [pyInt]
    simp only [grayscaleRow, grayscaleRowBody, extractChannels, channelKeys,
      except_ok_bind, hex]
    simp only [Option.isNone_some, Bool.false_eq_true, if_false, pure_bind]
    rw [hres]
    simp only [except_ok_bind]
    rw [halpha]
    simp only [except_ok_bind, Except.toOption, List.zip_cons_cons, List.zip_nil_right,
      List.map_cons, List.map_nil, Option.some.injEq, List.cons.injEq, and_true]
    rw [pyInt]
    norm_num
    rfl
  have h := rowIntegralMonotoneAndTotal _ 2 [63, 63] hgs
    (by intro x hx; simp at hx; omega) (by simp)
  exact ⟨hgs, h.1, h.2.1, h.2.2⟩

/-- A concrete single-keyframe float curve used in the export-transform
counterexample. -/
def fcSample : FloatCurve :=
  { keys := [{ interpMode := "RCIM_Linear", tangentMode := "RCTM_Break",
               tangentWeightMode := "RCTWM_WeightedNone", time := 0, value := 1/2,
               arriveTangent := 0, arriveTangentWeight := 0,
               leaveTangent := 0, leaveTangentWeight := 0 }]
    defaultValue := fltMaxLit
    preInfinityExtrap := "RCCE_Constant"
    postInfinityExtrap := "RCCE_Constant" }

/-- Counterexample for C8: on a freshly assembled record the export transform
drops the top-level `created_at` field, so not every other top-level field
passes through to the output. -/
theorem exportDropsCreatedAtCounterexample :
    objGet (assembledCurveJson ⟨fcSample, fcSample, fcSample, fcSample⟩
        0 0 0 0 0 0 0 "2025-01-01T00:00:00Z") "created_at" =
      some (.str "2025-01-01T00:00:00Z") ∧
    objGet (convert_to_UE_output_format
        (assembledCurveJson ⟨fcSample, fcSample, fcSample, fcSample⟩
          0 0 0 0 0 0 0 "2025-01-01T00:00:00Z")) "created_at" = none :=
  ⟨rfl, rfl⟩

/-- C8 (amended): for every assembled record, the export transform re-shapes
`floatCurves` from the channel-keyed mapping into an ordered sequence in fixed
R, G, B, A order (each channel's curve reproduced field-for-field), and the
seven adjustment scalars and `assetImportData` pass through unchanged — but
`created_at` is dropped: it does not appear in the output. -/
theorem exportReshapesAndPassesThrough (cc : ColorCurves)
    (a1 a2 a3 a4 a5 a6 a7 : ℚ) (ts : String) :
    convert_to_UE_output_format (assembledCurveJson cc a1 a2 a3 a4 a5 a6 a7 ts) =
      .obj [("floatCurves", .arr [floatCurveToJ cc.R, floatCurveToJ cc.G,
                                  floatCurveToJ cc.B, floatCurveToJ cc.A]),
            ("adjustHue", .num a1),
            ("adjustSaturation", .num a2),
            ("adjustBrightness", .num a3),
            ("adjustBrightnessCurve", .num a4),
            ("adjustVibrance", .num a5),
            ("adjustMinAlpha", .num a6),
            ("adjustMaxAlpha", .num a7),
            ("assetImportData", .obj [("_ClassName", .str "/Script/Engine.AssetImportData"),
                                      ("sourceData", .obj [])])] ∧
    objGet (convert_to_UE_output_format (assembledCurveJson cc a1 a2 a3 a4 a5 a6 a7 ts))
      "created_at" = none := by
  constructor
  · rfl
  · rfl

/-- C6: a spec carrying an unrecognized shape-family name string on any of the
four channels does not fail assembly: that channel falls back to the Parabolic
family (`get_enum` is applied identically to R, G, B and A), so the assembled
`floatCurves` (every channel) coincide with those of the same spec with the
bad name replaced by `"PARABOLIC"`, on the same randomness — one implication
per channel. -/
theorem unknownFamilyFallsBackToParabolic
    (rnd : Rng) (ops : MathOps) (spec : SpecData) (cid cts : String) (s : RState)
    (nm : String) (hbad : fctOfName (upperString nm) = none) :
    (spec.R_float_curve_type? = some nm →
      (generate_color_curve_from_spec rnd ops spec cid cts s).1.curve_json.floatCurves =
      (generate_color_curve_from_spec rnd ops
        { spec with R_float_curve_type? := some "PARABOLIC" } cid cts s).1.curve_json.floatCurves) ∧
    (spec.G_float_curve_type? = some nm →
      (generate_color_curve_from_spec rnd ops spec cid cts s).1.curve_json.floatCurves =
      (generate_color_curve_from_spec rnd ops
        { spec with G_float_curve_type? := some "PARABOLIC" } cid cts s).1.curve_json.floatCurves) ∧
    (spec.B_float_curve_type? = some nm →
      (generate_color_curve_from_spec rnd ops spec cid cts s).1.curve_json.floatCurves =
      (generate_color_curve_from_spec rnd ops
        { spec with B_float_curve_type? := some "PARABOLIC" } cid cts s).1.curve_json.floatCurves) ∧
    (spec.A_float_curve_type? = some nm →
      (generate_color_curve_from_spec rnd ops spec cid cts s).1.curve_json.floatCurves =
      (generate_color_curve_from_spec rnd ops
        { spec with A_float_curve_type? := some "PARABOLIC" } cid cts s).1.curve_json.floatCurves) := by
  have h2 : get_enum (some "PARABOLIC") "PARABOLIC" = FloatCurveType.PARABOLIC := rfl
  refine ⟨?_, ?_, ?_, ?_⟩
  · intro hR
    have h1 : get_enum spec.R_float_curve_type? "PARABOLIC" = FloatCurveType.PARABOLIC := by
      rw [hR]
      simp [get_enum, hbad]
    simp only [generate_color_curve_from_spec, h1, h2]
  · intro hG
    have h1 : get_enum spec.G_float_curve_type? "PARABOLIC" = FloatCurveType.PARABOLIC := by
      rw [hG]
      simp [get_enum, hbad]
    simp only [generate_color_curve_from_spec, h1, h2]
  · intro hB
    have h1 : get_enum spec.B_float_curve_type? "PARABOLIC" = FloatCurveType.PARABOLIC := by
      rw [hB]
      simp [get_enum, hbad]
    simp only [generate_color_curve_from_spec, h1, h2]
  · intro hA
    have h1 : get_enum spec.A_float_curve_type? "PARABOLIC" = FloatCurveType.PARABOLIC := by
      rw [hA]
      simp [get_enum, hbad]
    simp only [generate_color_curve_from_spec, h1, h2]

/-- Witness for C6: the concrete unrecognized name `"NOTAFAMILY"`, placed on
the B channel, yields the same four float curves as an explicit
`"PARABOLIC"` there (the B implication of the theorem, applied at a spec whose
other channels are untouched). -/
theorem unknownFamilyFallsBackToParabolicWitness :
    fctOfName (upperString "NOTAFAMILY") = none ∧
    (generate_color_curve_from_spec
        ⟨fun _ => 1/2, fun _ => 0⟩
        { pi := 0, e := 0, sin := fun _ => 0, exp := fun _ => 0, log := fun _ => 0,
          log1p := fun _ => 0, fresnelC := fun _ => 0, powPhi := fun _ => 0,
          sqrt := fun _ => 0 }
        { B_float_curve_type? := some "NOTAFAMILY" } "id0" "t0" (0, 0)).1.curve_json.floatCurves =
    (generate_color_curve_from_spec
        ⟨fun _ => 1/2, fun _ => 0⟩
        { pi := 0, e := 0, sin := fun _ => 0, exp := fun _ => 0, log := fun _ => 0,
          log1p := fun _ => 0, fresnelC := fun _ => 0, powPhi := fun _ => 0,
          sqrt := fun _ => 0 }
        { B_float_curve_type? := some "PARABOLIC" } "id0" "t0" (0, 0)).1.curve_json.floatCurves :=
  ⟨rfl,
   (unknownFamilyFallsBackToParabolic _ _
     { B_float_curve_type? := some "NOTAFAMILY" } "id0" "t0" (0, 0)
     "NOTAFAMILY" rfl).2.2.1 rfl⟩

theorem branchKey_value_det (rnd : Rng) (ops : MathOps) (fct : FloatCurveType)
    (t : ℚ) (s : RState) (h7 : fct ≠ .STEP) (h8 : fct ≠ .RANDOM) :
    (branchKey rnd ops fct t s).1.value = shapeValue ops fct t := by
  cases fct <;> first
    | rfl
    | exact absurd rfl h7
    | exact absurd rfl h8

theorem branchKey_step_threshold (rnd : Rng) (ops : MathOps) (t : ℚ) (s : RState)
    (hf : ∀ i, 0 ≤ rnd.floats i ∧ rnd.floats i ≤ 1) :
    ∃ thr, 3/10 ≤ thr ∧ thr ≤ 7/10 ∧
      (branchKey rnd ops .STEP t s).1.value = (if t < thr then 0 else 1) := by
  refine ⟨3/10 + (7/10 - 3/10) * rnd.floats s.1, ?_, ?_, rfl⟩
  · have := (hf s.1).1
    nlinarith
  · have h0 := (hf s.1).1
    have h1 := (hf s.1).2
    nlinarith

theorem pyUniform_symm_abs (rnd : Rng) (a : ℚ) (s : RState)
    (hf : ∀ i, 0 ≤ rnd.floats i ∧ rnd.floats i ≤ 1) :
    |(pyUniform rnd (-a) a s).1| ≤ |a| := by
  have h0 := (hf s.1).1
  have h1 := (hf s.1).2
  have he : (pyUniform rnd (-a) a s).1 = a * (2 * rnd.floats s.1 - 1) := by
    show -a + (a - -a) * rnd.floats s.1 = _
    ring
  rw [he, abs_mul]
  have h21 : |2 * rnd.floats s.1 - 1| ≤ 1 := abs_le.mpr ⟨by linarith, by linarith⟩
  exact le_trans (mul_le_mul_of_nonneg_left h21 (abs_nonneg a)) (by simp)

theorem genKeyRandom_value (rnd : Rng) (ops : MathOps) (fct : FloatCurveType)
    (n : ℕ) (t : ℚ) (s : RState) :
    (genKeyRandom rnd ops fct n t s).1.value =
      clamp ((branchKey rnd ops fct t s).1.value +
        (pyUniform rnd (-(noiseRange ops n)) (noiseRange ops n)
          (branchKey rnd ops fct t s).2).1) 0 1 := rfl

theorem genKeyRandom_time (rnd : Rng) (ops : MathOps) (fct : FloatCurveType)
    (n : ℕ) (t : ℚ) (s : RState) :
    (genKeyRandom rnd ops fct n t s).1.time = t := rfl

theorem genKeyScaled_value (rnd : Rng) (ops : MathOps) (fct : FloatCurveType)
    (ns : ℚ) (n : ℕ) (t : ℚ) (s : RState) :
    (genKeyScaled rnd ops fct ns n t s).1.value =
      (if ns = 0 then (branchKey rnd ops fct t s).1.value
       else clamp ((branchKey rnd ops fct t s).1.value +
        (pyUniform rnd (-(noiseRange ops n)) (noiseRange ops n)
          (branchKey rnd ops fct t s).2).1 * ns) 0 1) := by
  by_cases h : ns = 0
  · simp [genKeyScaled, h, mkKey]
  · simp [genKeyScaled, h, mkKey]

theorem genKeyScaled_time (rnd : Rng) (ops : MathOps) (fct : FloatCurveType)
    (ns : ℚ) (n : ℕ) (t : ℚ) (s : RState) :
    (genKeyScaled rnd ops fct ns n t s).1.time = t := by
  by_cases h : ns = 0
  · simp [genKeyScaled, h, mkKey]
  · simp [genKeyScaled, h, mkKey]

theorem genKeysRandom_length (rnd : Rng) (ops : MathOps) (fct : FloatCurveType)
    (n : ℕ) : ∀ (ts : List ℚ) (s : RState),
    (genKeysRandom rnd ops fct n ts s).1.length = ts.length := by
  intro ts
  induction ts with
  | nil => intro s; rfl
  | cons t ts ih => intro s; simp [genKeysRandom, ih]

theorem genKeysScaled_length (rnd : Rng) (ops : MathOps) (fct : FloatCurveType)
    (ns : ℚ) (n : ℕ) : ∀ (ts : List ℚ) (s : RState),
    (genKeysScaled rnd ops fct ns n ts s).1.length = ts.length := by
  intro ts
  induction ts with
  | nil => intro s; rfl
  | cons t ts ih => intro s; simp [genKeysScaled, ih]

theorem genKeysRandom_time_map (rnd : Rng) (ops : MathOps) (fct : FloatCurveType)
    (n : ℕ) : ∀ (ts : List ℚ) (s : RState),
    (genKeysRandom rnd ops fct n ts s).1.map (fun k => k.time) = ts := by
  intro ts
  induction ts with
  | nil => intro s; rfl
  | cons t ts ih =>
    intro s
    simp only [genKeysRandom, List.map_cons, ih]
    rw [genKeyRandom_time]

theorem genKeysScaled_time_map (rnd : Rng) (ops : MathOps) (fct : FloatCurveType)
    (ns : ℚ) (n : ℕ) : ∀ (ts : List ℚ) (s : RState),
    (genKeysScaled rnd ops fct ns n ts s).1.map (fun k => k.time) = ts := by
  intro ts
  induction ts with
  | nil => intro s; rfl
  | cons t ts ih =>
    intro s
    simp only [genKeysScaled, List.map_cons, ih]
    rw [genKeyScaled_time]

theorem genKeysRandom_mem (rnd : Rng) (ops : MathOps) (fct : FloatCurveType)
    (n : ℕ) : ∀ (ts : List ℚ) (s : RState) (k : Key),
    k ∈ (genKeysRandom rnd ops fct n ts s).1 →
    ∃ t s', k = (genKeyRandom rnd ops fct n t s').1 := by
  intro ts
  induction ts with
  | nil => intro s k hk; cases hk
  | cons t ts ih =>
    intro s k hk
    rcases List.mem_cons.mp hk with h | h
    · exact ⟨t, s, h⟩
    · exact ih _ k h

theorem genKeysScaled_get (rnd : Rng) (ops : MathOps) (fct : FloatCurveType)
    (ns : ℚ) (n : ℕ) : ∀ (ts : List ℚ) (s : RState) (i : ℕ)
    (hi : i < (genKeysScaled rnd ops fct ns n ts s).1.length)
    (hj : i < ts.length),
    ∃ s', (genKeysScaled rnd ops fct ns n ts s).1.get ⟨i, hi⟩ =
      (genKeyScaled rnd ops fct ns n (ts.get ⟨i, hj⟩) s').1 := by
  intro ts
  induction ts with
  | nil => intro s i hi hj; cases (Nat.not_lt_zero i) hj
  | cons t ts ih =>
    intro s i hi hj
    cases i with
    | zero => exact ⟨s, rfl⟩
    | succ m =>
      have hi' : m < (genKeysScaled rnd ops fct ns n ts
          (genKeyScaled rnd ops fct ns n t s).2).1.length := by
        have := genKeysScaled_length rnd ops fct ns n ts
          (genKeyScaled rnd ops fct ns n t s).2
        rw [this]
        exact Nat.lt_of_succ_lt_succ hj
      obtain ⟨s', hs'⟩ := ih ((genKeyScaled rnd ops fct ns n t s).2) m hi'
        (Nat.lt_of_succ_lt_succ hj)
      exact ⟨s', hs'⟩

theorem drawUniforms_length (rnd : Rng) : ∀ (n : ℕ) (s : RState),
    (drawUniforms rnd n s).1.length = n := by
  intro n
  induction n with
  | zero => intro s; rfl
  | succ m ih => intro s; simp [drawUniforms, ih]

theorem sortQ_length (l : List ℚ) : (sortQ l).length = l.length :=
  (List.perm_insertionSort _ l).length_eq

theorem sortQ_sorted (l : List ℚ) : List.Sorted (· ≤ ·) (sortQ l) :=
  List.sorted_insertionSort _ l

theorem genKeysRandom_value_bounds (rnd : Rng) (ops : MathOps) (fct : FloatCurveType)
    (n : ℕ) (ts : List ℚ) (s : RState) :
    ∀ k ∈ (genKeysRandom rnd ops fct n ts s).1, 0 ≤ k.value ∧ k.value ≤ 1 := by
  intro k hk
  obtain ⟨t, s', hks⟩ := genKeysRandom_mem rnd ops fct n ts s k hk
  rw [hks, genKeyRandom_value]
  exact ⟨clamp01_nonneg _, clamp01_le_one _⟩

theorem grfcAll (rnd : Rng) (ops : MathOps) (fct : FloatCurveType)
    (minK maxK : ℕ) (s1 : RState) (h : minK ≤ maxK) :
    minK ≤ (genKeysRandom rnd ops fct (pyRandint rnd minK maxK s1).1
        (sortQ (drawUniforms rnd (pyRandint rnd minK maxK s1).1
          (pyRandint rnd minK maxK s1).2).1)
        (drawUniforms rnd (pyRandint rnd minK maxK s1).1
          (pyRandint rnd minK maxK s1).2).2).1.length ∧
      (genKeysRandom rnd ops fct (pyRandint rnd minK maxK s1).1
        (sortQ (drawUniforms rnd (pyRandint rnd minK maxK s1).1
          (pyRandint rnd minK maxK s1).2).1)
        (drawUniforms rnd (pyRandint rnd minK maxK s1).1
          (pyRandint rnd minK maxK s1).2).2).1.length ≤ maxK ∧
      List.Sorted (· ≤ ·)
        ((genKeysRandom rnd ops fct (pyRandint rnd minK maxK s1).1
          (sortQ (drawUniforms rnd (pyRandint rnd minK maxK s1).1
            (pyRandint rnd minK maxK s1).2).1)
          (drawUniforms rnd (pyRandint rnd minK maxK s1).1
            (pyRandint rnd minK maxK s1).2).2).1.map (fun k => k.time)) ∧
      ∀ k ∈ (genKeysRandom rnd ops fct (pyRandint rnd minK maxK s1).1
        (sortQ (drawUniforms rnd (pyRandint rnd minK maxK s1).1
          (pyRandint rnd minK maxK s1).2).1)
        (drawUniforms rnd (pyRandint rnd minK maxK s1).1
          (pyRandint rnd minK maxK s1).2).2).1, 0 ≤ k.value ∧ k.value ≤ 1 := by
  have hlen : (genKeysRandom rnd ops fct (pyRandint rnd minK maxK s1).1
      (sortQ (drawUniforms rnd (pyRandint rnd minK maxK s1).1
        (pyRandint rnd minK maxK s1).2).1)
      (drawUniforms rnd (pyRandint rnd minK maxK s1).1
        (pyRandint rnd minK maxK s1).2).2).1.length = (pyRandint rnd minK maxK s1).1 := by
    rw [genKeysRandom_length, sortQ_length, drawUniforms_length]
  have hnk1 : minK ≤ (pyRandint rnd minK maxK s1).1 := Nat.le_add_right minK _
  have hnk2 : (pyRandint rnd minK maxK s1).1 ≤ maxK := by
    show minK + rnd.ints s1.2 % (maxK + 1 - minK) ≤ maxK
    have hpos : 0 < maxK + 1 - minK := by omega
    have := Nat.mod_lt (rnd.ints s1.2) hpos
    omega
  refine ⟨by rw [hlen]; exact hnk1, by rw [hlen]; exact hnk2, ?_, ?_⟩
  · rw [genKeysRandom_time_map]
    exact sortQ_sorted _
  · exact genKeysRandom_value_bounds rnd ops fct _ _ _

/-- C5: random-mode synthesis with `minKeys ≤ maxKeys` returns a key count
within `[minKeys, maxKeys]`, keyframe times sorted non-decreasingly, and every
keyframe value (the shape value plus a noise draw, clamped) within `[0, 1]` —
for every shape family, including a randomly chosen one. -/
theorem synthesizeRandomBounds (rnd : Rng) (ops : MathOps) (minK maxK : ℕ)
    (fct? : Option FloatCurveType) (s : RState) (h : minK ≤ maxK) :
    minK ≤ (generate_random_float_curve rnd ops minK maxK fct? s).1.keys.length ∧
    (generate_random_float_curve rnd ops minK maxK fct? s).1.keys.length ≤ maxK ∧
    List.Sorted (· ≤ ·)
      ((generate_random_float_curve rnd ops minK maxK fct? s).1.keys.map (fun k => k.time)) ∧
    ∀ k ∈ (generate_random_float_curve rnd ops minK maxK fct? s).1.keys,
      0 ≤ k.value ∧ k.value ≤ 1 := by
  cases fct? with
  | none => exact grfcAll rnd ops (pyChoiceFCT rnd s).1 minK maxK (pyChoiceFCT rnd s).2 h
  | some f => exact grfcAll rnd ops f minK maxK s h

/-- Witness for C5 with `minKeys = 2 ≤ 100 = maxKeys` on concrete streams. -/
theorem synthesizeRandomBoundsWitness :
    2 ≤ 100 ∧
    (2 ≤ (generate_random_float_curve
        ⟨fun _ => 1/2, fun _ => 0⟩
        { pi := 0, e := 0, sin := fun _ => 0, exp := fun _ => 0, log := fun _ => 0,
          log1p := fun _ => 0, fresnelC := fun _ => 0, powPhi := fun _ => 0,
          sqrt := fun _ => 0 }
        2 100 (some .LERP) (0, 0)).1.keys.length ∧
      (generate_random_float_curve
        ⟨fun _ => 1/2, fun _ => 0⟩
        { pi := 0, e := 0, sin := fun _ => 0, exp := fun _ => 0, log := fun _ => 0,
          log1p := fun _ => 0, fresnelC := fun _ => 0, powPhi := fun _ => 0,
          sqrt := fun _ => 0 }
        2 100 (some .LERP) (0, 0)).1.keys.length ≤ 100 ∧
      List.Sorted (· ≤ ·)
        ((generate_random_float_curve
          ⟨fun _ => 1/2, fun _ => 0⟩
          { pi := 0, e := 0, sin := fun _ => 0, exp := fun _ => 0, log := fun _ => 0,
            log1p := fun _ => 0, fresnelC := fun _ => 0, powPhi := fun _ => 0,
            sqrt := fun _ => 0 }
          2 100 (some .LERP) (0, 0)).1.keys.map (fun k => k.time)) ∧
      ∀ k ∈ (generate_random_float_curve
          ⟨fun _ => 1/2, fun _ => 0⟩
          { pi := 0, e := 0, sin := fun _ => 0, exp := fun _ => 0, log := fun _ => 0,
            log1p := fun _ => 0, fresnelC := fun _ => 0, powPhi := fun _ => 0,
            sqrt := fun _ => 0 }
          2 100 (some .LERP) (0, 0)).1.keys, 0 ≤ k.value ∧ k.value ≤ 1) :=
  ⟨by norm_num,
   synthesizeRandomBounds _ _ 2 100 (some .LERP) (0, 0) (by norm_num)⟩

theorem scaledCount_eq_100 (fct : FloatCurveType) (hfr : fct ≠ .RANDOM) :
    ((max (2 : ℤ) (min (pyInt ((defaultKeyCount fct : ℚ) * 1)) 100))).toNat = 100 := by
  cases fct <;> first
    | exact absurd rfl hfr
    | (rw [pyInt]; norm_num [defaultKeyCount]; rfl)

/-- C4: scaled-mode synthesis with `resolutionScale = 1`, `noiseScale = 0` on
any non-Random family returns exactly the per-shape default key count clamped
to `[2, 100]` — that is, exactly 100 keys, every default being at least 110 —
and every keyframe's value is exactly the family's shape formula at its time,
with no noise added (for `STEP` the shape formula carries the per-key
threshold drawn from `[0.3, 0.7]`). -/
theorem synthesizeScaledExact (rnd : Rng) (ops : MathOps) (fct : FloatCurveType)
    (s : RState) (hfr : fct ≠ FloatCurveType.RANDOM)
    (hf : ∀ i, 0 ≤ rnd.floats i ∧ rnd.floats i ≤ 1) :
    (generate_float_curve rnd ops (some fct) 1 0 s).1.keys.length = 100 ∧
    ∀ (i : ℕ) (hi : i < (generate_float_curve rnd ops (some fct) 1 0 s).1.keys.length),
      ∃ thr, 3/10 ≤ thr ∧ thr ≤ 7/10 ∧
        ((generate_float_curve rnd ops (some fct) 1 0 s).1.keys.get ⟨i, hi⟩).value =
          (if fct = FloatCurveType.STEP then
            (if ((generate_float_curve rnd ops (some fct) 1 0 s).1.keys.get ⟨i, hi⟩).time < thr
             then 0 else 1)
           else shapeValue ops fct
             (((generate_float_curve rnd ops (some fct) 1 0 s).1.keys.get ⟨i, hi⟩).time)) := by
  have hkeys : (generate_float_curve rnd ops (some fct) 1 0 s).1.keys =
      (genKeysScaled rnd ops fct 0
        ((max (2 : ℤ) (min (pyInt ((defaultKeyCount fct : ℚ) * 1)) 100))).toNat
        (sortQ (drawUniforms rnd
          ((max (2 : ℤ) (min (pyInt ((defaultKeyCount fct : ℚ) * 1)) 100))).toNat
          (s.1, s.2 + 1)).1)
        (drawUniforms rnd
          ((max (2 : ℤ) (min (pyInt ((defaultKeyCount fct : ℚ) * 1)) 100))).toNat
          (s.1, s.2 + 1)).2).1 := by
    simp only [generate_float_curve]
    rw [if_neg hfr]
    rfl
  have hlen : (generate_float_curve rnd ops (some fct) 1 0 s).1.keys.length = 100 := by
    rw [hkeys, genKeysScaled_length, sortQ_length, drawUniforms_length,
      scaledCount_eq_100 fct hfr]
  refine ⟨hlen, ?_⟩
  intro i hi
  have hi' : i < (genKeysScaled rnd ops fct 0
      ((max (2 : ℤ) (min (pyInt ((defaultKeyCount fct : ℚ) * 1)) 100))).toNat
      (sortQ (drawUniforms rnd
        ((max (2 : ℤ) (min (pyInt ((defaultKeyCount fct : ℚ) * 1)) 100))).toNat
        (s.1, s.2 + 1)).1)
      (drawUniforms rnd
        ((max (2 : ℤ) (min (pyInt ((defaultKeyCount fct : ℚ) * 1)) 100))).toNat
        (s.1, s.2 + 1)).2).1.length := by
    rw [← hkeys]
    exact hi
  have hj : i < (sortQ (drawUniforms rnd
      ((max (2 : ℤ) (min (pyInt ((defaultKeyCount fct : ℚ) * 1)) 100))).toNat
      (s.1, s.2 + 1)).1).length := by
    rw [sortQ_length, drawUniforms_length]
    rw [hlen] at hi
    rw [scaledCount_eq_100 fct hfr]
    exact hi
  have hget : (generate_float_curve rnd ops (some fct) 1 0 s).1.keys.get ⟨i, hi⟩ =
      (genKeysScaled rnd ops fct 0
        ((max (2 : ℤ) (min (pyInt ((defaultKeyCount fct : ℚ) * 1)) 100))).toNat
        (sortQ (drawUniforms rnd
          ((max (2 : ℤ) (min (pyInt ((defaultKeyCount fct : ℚ) * 1)) 100))).toNat
          (s.1, s.2 + 1)).1)
        (drawUniforms rnd
          ((max (2 : ℤ) (min (pyInt ((defaultKeyCount fct : ℚ) * 1)) 100))).toNat
          (s.1, s.2 + 1)).2).1.get ⟨i, hi'⟩ := by
    exact List.get_of_eq hkeys ⟨i, hi⟩
  obtain ⟨s', hs'⟩ := genKeysScaled_get rnd ops fct 0
    ((max (2 : ℤ) (min (pyInt ((defaultKeyCount fct : ℚ) * 1)) 100))).toNat
    (sortQ (drawUniforms rnd
      ((max (2 : ℤ) (min (pyInt ((defaultKeyCount fct : ℚ) * 1)) 100))).toNat
      (s.1, s.2 + 1)).1)
    (drawUniforms rnd
      ((max (2 : ℤ) (min (pyInt ((defaultKeyCount fct : ℚ) * 1)) 100))).toNat
      (s.1, s.2 + 1)).2 i hi' hj
  rw [hget, hs', genKeyScaled_value, genKeyScaled_time]
  simp only [eq_self_iff_true, if_true]
  by_cases hstep : fct = FloatCurveType.STEP
  · subst hstep
    simp only [eq_self_iff_true, if_true]
    obtain ⟨thr, h1, h2, h3⟩ := branchKey_step_threshold rnd ops _ s' hf
    exact ⟨thr, h1, h2, by rw [h3]⟩
  · rw [branchKey_value_det rnd ops fct _ s' hstep hfr]
    refine ⟨3/10, le_refl _, by norm_num, ?_⟩
    rw [if_neg hstep]

/-- Witness for C4 at the Parabolic family on concrete streams. -/
theorem synthesizeScaledExactWitness :
    (generate_float_curve
        ⟨fun _ => 1/2, fun _ => 0⟩
        { pi := 0, e := 0, sin := fun _ => 0, exp := fun _ => 0, log := fun _ => 0,
          log1p := fun _ => 0, fresnelC := fun _ => 0, powPhi := fun _ => 0,
          sqrt := fun _ => 0 }
        (some .PARABOLIC) 1 0 (0, 0)).1.keys.length = 100 ∧
    ∀ (i : ℕ) (hi : i < (generate_float_curve
        ⟨fun _ => 1/2, fun _ => 0⟩
        { pi := 0, e := 0, sin := fun _ => 0, exp := fun _ => 0, log := fun _ => 0,
          log1p := fun _ => 0, fresnelC := fun _ => 0, powPhi := fun _ => 0,
          sqrt := fun _ => 0 }
        (some .PARABOLIC) 1 0 (0, 0)).1.keys.length),
      ∃ thr, 3/10 ≤ thr ∧ thr ≤ 7/10 ∧
        ((generate_float_curve
          ⟨fun _ => 1/2, fun _ => 0⟩
          { pi := 0, e := 0, sin := fun _ => 0, exp := fun _ => 0, log := fun _ => 0,
            log1p := fun _ => 0, fresnelC := fun _ => 0, powPhi := fun _ => 0,
            sqrt := fun _ => 0 }
          (some .PARABOLIC) 1 0 (0, 0)).1.keys.get ⟨i, hi⟩).value =
          (if FloatCurveType.PARABOLIC = FloatCurveType.STEP then
            (if ((generate_float_curve
              ⟨fun _ => 1/2, fun _ => 0⟩
              { pi := 0, e := 0, sin := fun _ => 0, exp := fun _ => 0, log := fun _ => 0,
                log1p := fun _ => 0, fresnelC := fun _ => 0, powPhi := fun _ => 0,
                sqrt := fun _ => 0 }
              (some .PARABOLIC) 1 0 (0, 0)).1.keys.get ⟨i, hi⟩).time < thr
             then 0 else 1)
           else shapeValue
             { pi := 0, e := 0, sin := fun _ => 0, exp := fun _ => 0, log := fun _ => 0,
               log1p := fun _ => 0, fresnelC := fun _ => 0, powPhi := fun _ => 0,
               sqrt := fun _ => 0 }
             FloatCurveType.PARABOLIC
             (((generate_float_curve
               ⟨fun _ => 1/2, fun _ => 0⟩
               { pi := 0, e := 0, sin := fun _ => 0, exp := fun _ => 0, log := fun _ => 0,
                 log1p := fun _ => 0, fresnelC := fun _ => 0, powPhi := fun _ => 0,
                 sqrt := fun _ => 0 }
               (some .PARABOLIC) 1 0 (0, 0)).1.keys.get ⟨i, hi⟩).time)) :=
  synthesizeScaledExact _ _ FloatCurveType.PARABOLIC (0, 0)
    (by intro h; cases h)
    (by intro i; norm_num)

/-- The Step-family curve produced by scaled-mode synthesis. -/
def stepScaledCurve (rnd : Rng) (ops : MathOps) (rs ns : ℚ) (s : RState) : FloatCurve :=
  (generate_float_curve rnd ops (some .STEP) rs ns s).1

/-- The Step-family curve produced by random-mode synthesis. -/
def stepRandomCurve (rnd : Rng) (ops : MathOps) (minK maxK : ℕ) (s : RState) : FloatCurve :=
  (generate_random_float_curve rnd ops minK maxK (some .STEP) s).1

theorem stepScaledCurve_keys_eq (rnd : Rng) (ops : MathOps) (rs ns : ℚ) (s : RState) :
    (stepScaledCurve rnd ops rs ns s).keys =
      (genKeysScaled rnd ops .STEP ns
        ((max (2 : ℤ) (min (pyInt ((defaultKeyCount .STEP : ℚ) * rs)) 100))).toNat
        (sortQ (drawUniforms rnd
          ((max (2 : ℤ) (min (pyInt ((defaultKeyCount .STEP : ℚ) * rs)) 100))).toNat
          (s.1, s.2 + 1)).1)
        (drawUniforms rnd
          ((max (2 : ℤ) (min (pyInt ((defaultKeyCount .STEP : ℚ) * rs)) 100))).toNat
          (s.1, s.2 + 1)).2).1 := rfl

theorem stepRandomCurve_keys_eq (rnd : Rng) (ops : MathOps) (minK maxK : ℕ) (s : RState) :
    (stepRandomCurve rnd ops minK maxK s).keys =
      (genKeysRandom rnd ops .STEP (pyRandint rnd minK maxK s).1
        (sortQ (drawUniforms rnd (pyRandint rnd minK maxK s).1
          (pyRandint rnd minK maxK s).2).1)
        (drawUniforms rnd (pyRandint rnd minK maxK s).1
          (pyRandint rnd minK maxK s).2).2).1 := rfl

/-- C2 (amended): in both random- and scaled-mode synthesis of a Step-family
curve, a step threshold is drawn uniformly from `[0.3, 0.7]` anew for *every
keyframe* (not once per curve): each keyframe's value is 0 if its time is
below that keyframe's own threshold and 1 otherwise, then noise is added —
always in random mode, and in scaled mode only when `noiseScale ≠ 0` — and
clamped to `[0, 1]`.  Because thresholds differ between keys, the emitted
values need not be non-decreasing in time order. -/
theorem stepThresholdPerKey (rnd : Rng) (ops : MathOps) (s : RState)
    (rs ns : ℚ) (minK maxK : ℕ)
    (hf : ∀ i, 0 ≤ rnd.floats i ∧ rnd.floats i ≤ 1) :
    (∀ (i : ℕ) (hi : i < (stepScaledCurve rnd ops rs ns s).keys.length),
      ∃ thr ν, 3/10 ≤ thr ∧ thr ≤ 7/10 ∧
        |ν| ≤ |noiseRange ops (stepScaledCurve rnd ops rs ns s).keys.length| * |ns| ∧
        ((stepScaledCurve rnd ops rs ns s).keys.get ⟨i, hi⟩).value =
          (if ns = 0
           then (if ((stepScaledCurve rnd ops rs ns s).keys.get ⟨i, hi⟩).time < thr
                 then 0 else 1)
           else clamp
             ((if ((stepScaledCurve rnd ops rs ns s).keys.get ⟨i, hi⟩).time < thr
               then 0 else 1) + ν) 0 1)) ∧
    (∀ (i : ℕ) (hi : i < (stepRandomCurve rnd ops minK maxK s).keys.length),
      ∃ thr ν, 3/10 ≤ thr ∧ thr ≤ 7/10 ∧
        |ν| ≤ |noiseRange ops (stepRandomCurve rnd ops minK maxK s).keys.length| ∧
        ((stepRandomCurve rnd ops minK maxK s).keys.get ⟨i, hi⟩).value =
          clamp ((if ((stepRandomCurve rnd ops minK maxK s).keys.get ⟨i, hi⟩).time < thr
                  then 0 else 1) + ν) 0 1) := by
  constructor
  · intro i hi
    have hi' : i < (genKeysScaled rnd ops .STEP ns
        ((max (2 : ℤ) (min (pyInt ((defaultKeyCount .STEP : ℚ) * rs)) 100))).toNat
        (sortQ (drawUniforms rnd
          ((max (2 : ℤ) (min (pyInt ((defaultKeyCount .STEP : ℚ) * rs)) 100))).toNat
          (s.1, s.2 + 1)).1)
        (drawUniforms rnd
          ((max (2 : ℤ) (min (pyInt ((defaultKeyCount .STEP : ℚ) * rs)) 100))).toNat
          (s.1, s.2 + 1)).2).1.length := by
      rw [← stepScaledCurve_keys_eq]; exact hi
    have hj : i < (sortQ (drawUniforms rnd
        ((max (2 : ℤ) (min (pyInt ((defaultKeyCount .STEP : ℚ) * rs)) 100))).toNat
        (s.1, s.2 + 1)).1).length := by
      rw [← genKeysScaled_length rnd ops .STEP ns _ _ (drawUniforms rnd
        ((max (2 : ℤ) (min (pyInt ((defaultKeyCount .STEP : ℚ) * rs)) 100))).toNat
        (s.1, s.2 + 1)).2]
      exact hi'
    have hnum : (stepScaledCurve rnd ops rs ns s).keys.length =
        ((max (2 : ℤ) (min (pyInt ((defaultKeyCount .STEP : ℚ) * rs)) 100))).toNat := by
      rw [stepScaledCurve_keys_eq, genKeysScaled_length, sortQ_length, drawUniforms_length]
    have hget := List.get_of_eq (stepScaledCurve_keys_eq rnd ops rs ns s) ⟨i, hi⟩
    obtain ⟨s', hs'⟩ := genKeysScaled_get rnd ops .STEP ns
      ((max (2 : ℤ) (min (pyInt ((defaultKeyCount .STEP : ℚ) * rs)) 100))).toNat
      (sortQ (drawUniforms rnd
        ((max (2 : ℤ) (min (pyInt ((defaultKeyCount .STEP : ℚ) * rs)) 100))).toNat
        (s.1, s.2 + 1)).1)
      (drawUniforms rnd
        ((max (2 : ℤ) (min (pyInt ((defaultKeyCount .STEP : ℚ) * rs)) 100))).toNat
        (s.1, s.2 + 1)).2 i hi' hj
    rw [hget, hs', genKeyScaled_value, genKeyScaled_time, hnum]
    obtain ⟨thr, h1, h2, h3⟩ := branchKey_step_threshold rnd ops
      ((sortQ (drawUniforms rnd
        ((max (2 : ℤ) (min (pyInt ((defaultKeyCount .STEP : ℚ) * rs)) 100))).toNat
        (s.1, s.2 + 1)).1).get ⟨i, hj⟩) s' hf
    by_cases hns : ns = 0
    · refine ⟨thr, 0, h1, h2, ?_, ?_⟩
      · rw [hns]
        simp
      · rw [if_pos hns, if_pos hns, h3]
    · refine ⟨thr,
        (pyUniform rnd
          (-(noiseRange ops ((max (2 : ℤ) (min (pyInt ((defaultKeyCount .STEP : ℚ) * rs)) 100))).toNat))
          (noiseRange ops ((max (2 : ℤ) (min (pyInt ((defaultKeyCount .STEP : ℚ) * rs)) 100))).toNat)
          (branchKey rnd ops .STEP
            ((sortQ (drawUniforms rnd
              ((max (2 : ℤ) (min (pyInt ((defaultKeyCount .STEP : ℚ) * rs)) 100))).toNat
              (s.1, s.2 + 1)).1).get ⟨i, hj⟩) s').2).1 * ns,
        h1, h2, ?_, ?_⟩
      · rw [abs_mul]
        exact mul_le_mul_of_nonneg_right (pyUniform_symm_abs rnd _ _ hf) (abs_nonneg ns)
      · rw [if_neg hns, if_neg hns, h3]
  · intro i hi
    have hi' : i < (genKeysRandom rnd ops .STEP (pyRandint rnd minK maxK s).1
        (sortQ (drawUniforms rnd (pyRandint rnd minK maxK s).1
          (pyRandint rnd minK maxK s).2).1)
        (drawUniforms rnd (pyRandint rnd minK maxK s).1
          (pyRandint rnd minK maxK s).2).2).1.length := by
      rw [← stepRandomCurve_keys_eq]; exact hi
    have hj : i < (sortQ (drawUniforms rnd (pyRandint rnd minK maxK s).1
        (pyRandint rnd minK maxK s).2).1).length := by
      rw [← genKeysRandom_length rnd ops .STEP (pyRandint rnd minK maxK s).1 _
        (drawUniforms rnd (pyRandint rnd minK maxK s).1
          (pyRandint rnd minK maxK s).2).2]
      exact hi'
    have hnum : (stepRandomCurve rnd ops minK maxK s).keys.length =
        (pyRandint rnd minK maxK s).1 := by
      rw [stepRandomCurve_keys_eq, genKeysRandom_length, sortQ_length, drawUniforms_length]
    have hget := List.get_of_eq (stepRandomCurve_keys_eq rnd ops minK maxK s) ⟨i, hi⟩
    obtain ⟨t0, s', hks⟩ := genKeysRandom_mem rnd ops .STEP (pyRandint rnd minK maxK s).1
      (sortQ (drawUniforms rnd (pyRandint rnd minK maxK s).1
        (pyRandint rnd minK maxK s).2).1)
      (drawUniforms rnd (pyRandint rnd minK maxK s).1
        (pyRandint rnd minK maxK s).2).2
      ((genKeysRandom rnd ops .STEP (pyRandint rnd minK maxK s).1
        (sortQ (drawUniforms rnd (pyRandint rnd minK maxK s).1
          (pyRandint rnd minK maxK s).2).1)
        (drawUniforms rnd (pyRandint rnd minK maxK s).1
          (pyRandint rnd minK maxK s).2).2).1.get ⟨i, hi'⟩)
      (List.get_mem _ _ _)
    rw [hget, hks, genKeyRandom_value, genKeyRandom_time, hnum]
    obtain ⟨thr, h1, h2, h3⟩ := branchKey_step_threshold rnd ops t0 s' hf
    refine ⟨thr,
      (pyUniform rnd (-(noiseRange ops (pyRandint rnd minK maxK s).1))
        (noiseRange ops (pyRandint rnd minK maxK s).1)
        (branchKey rnd ops .STEP t0 s').2).1,
      h1, h2, ?_, ?_⟩
    · exact pyUniform_symm_abs rnd _ _ hf
    · rw [h3]

/-- Concrete oracle streams for the Step counterexample: times 0.4 and 0.5,
then per-key threshold draws 0 (threshold 0.3) and 0.99 (threshold 0.696). -/
def stepRng : Rng :=
  ⟨fun i => if i = 0 then 2/5 else if i = 1 then 1/2 else if i = 2 then 0 else 99/100,
   fun _ => 0⟩

/-- A trivial interpretation of the transcendental operations (the Step family
uses none of them). -/
def opsZero : MathOps :=
  ⟨0, 0, fun _ => 0, fun _ => 0, fun _ => 0, fun _ => 0, fun _ => 0, fun _ => 0, fun _ => 0⟩

/-- Counterexample for C2: a concrete scaled-mode Step synthesis (resolution
scale 1/55, noise scale 0, so values carry no noise at all) emits the values
`[1, 0]` in time order — the first keyframe (time 0.4) drew threshold 0.3, the
second (time 0.5) drew threshold 0.696.  The emitted values are *decreasing*:
there is no single curve-wide threshold, and the values are not non-decreasing
with at most one 0-to-1 transition. -/
theorem stepSharedThresholdCounterexample :
    ((stepScaledCurve stepRng opsZero (1/55) 0 (0, 0)).keys.map (fun k => k.value)) = [1, 0] ∧
    ¬ List.Chain' (· ≤ ·)
      ((stepScaledCurve stepRng opsZero (1/55) 0 (0, 0)).keys.map (fun k => k.value)) := by
  have hnk : ((max (2 : ℤ) (min (pyInt ((defaultKeyCount .STEP : ℚ) * (1/55))) 100))).toNat = 2 := by
    rw [pyInt]
    norm_num [defaultKeyCount]
    rfl
  have hdu : drawUniforms stepRng 2 (0, 1) = ([2/5, 1/2], (2, 1)) := by
    simp [drawUniforms, pyUniform, randFloat, stepRng]
  have hsort : sortQ [(2 : ℚ)/5, 1/2] = [2/5, 1/2] := by
    rw [sortQ]
    rw [show List.insertionSort (· ≤ ·) [(2 : ℚ)/5, 1/2] =
      List.orderedInsert (· ≤ ·) (2/5) (List.orderedInsert (· ≤ ·) (1/2) []) from rfl]
    rw [List.orderedInsert, List.orderedInsert]
    rw [if_pos (by norm_num : (2 : ℚ)/5 ≤ 1/2)]
  have hkeys : (stepScaledCurve stepRng opsZero (1/55) 0 (0, 0)).keys =
      (genKeysScaled stepRng opsZero .STEP 0 2 [2/5, 1/2] (2, 1)).1 := by
    rw [stepScaledCurve_keys_eq, hnk, hdu, hsort]
  have hv : (genKeysScaled stepRng opsZero .STEP 0 2 [(2 : ℚ)/5, 1/2] (2, 1)).1.map
      (fun k => k.value) = [1, 0] := by
    simp only [genKeysScaled, genKeyScaled, branchKey, pyUniform, randFloat, mkKey,
      List.map_cons, List.map_nil, stepRng]
    norm_num
  constructor
  · rw [hkeys, hv]
  · rw [hkeys, hv]
    simp only [List.chain'_cons, List.chain'_singleton, and_true]
    norm_num

/-- Witness for C2 on the concrete streams of the counterexample. -/
theorem stepThresholdPerKeyWitness :
    (∀ (i : ℕ) (hi : i < (stepScaledCurve stepRng opsZero 1 0 (0, 0)).keys.length),
      ∃ thr ν, 3/10 ≤ thr ∧ thr ≤ 7/10 ∧
        |ν| ≤ |noiseRange opsZero (stepScaledCurve stepRng opsZero 1 0 (0, 0)).keys.length| * |(0 : ℚ)| ∧
        ((stepScaledCurve stepRng opsZero 1 0 (0, 0)).keys.get ⟨i, hi⟩).value =
          (if (0 : ℚ) = 0
           then (if ((stepScaledCurve stepRng opsZero 1 0 (0, 0)).keys.get ⟨i, hi⟩).time < thr
                 then 0 else 1)
           else clamp
             ((if ((stepScaledCurve stepRng opsZero 1 0 (0, 0)).keys.get ⟨i, hi⟩).time < thr
               then 0 else 1) + ν) 0 1)) ∧
    (∀ (i : ℕ) (hi : i < (stepRandomCurve stepRng opsZero 2 100 (0, 0)).keys.length),
      ∃ thr ν, 3/10 ≤ thr ∧ thr ≤ 7/10 ∧
        |ν| ≤ |noiseRange opsZero (stepRandomCurve stepRng opsZero 2 100 (0, 0)).keys.length| ∧
        ((stepRandomCurve stepRng opsZero 2 100 (0, 0)).keys.get ⟨i, hi⟩).value =
          clamp ((if ((stepRandomCurve stepRng opsZero 2 100 (0, 0)).keys.get ⟨i, hi⟩).time < thr
                  then 0 else 1) + ν) 0 1) :=
  stepThresholdPerKey stepRng opsZero (0, 0) 1 0 2 100
    (by
      intro i
      show 0 ≤ (if i = 0 then (2 : ℚ)/5 else if i = 1 then 1/2 else if i = 2 then 0 else 99/100) ∧
        (if i = 0 then (2 : ℚ)/5 else if i = 1 then 1/2 else if i = 2 then 0 else 99/100) ≤ 1
      split_ifs <;> norm_num)
